import Mathlib

/-!
Shallow embedding of the LS-8 virtual CPU implemented in `src/cpu.py`.

Conventions of the embedding:
* Python integers are unbounded, so register, memory, PC and flag values are
  modelled as `ℤ` (the source never masks to 8 bits).
* Python list indexing (`self.ram[mar]`, `self.reg[r]`) accepts indices in
  `[-len, len)`, wrapping negative indices, and raises `IndexError` otherwise;
  `pyGet` / `pySet` reproduce this exactly.
* Uncaught Python exceptions are modelled by the `Except RunErr` monad.
* Python `&`, `|`, `~`, `<<`, `>>` on ints are twos-complement operations on
  unbounded integers, which is exactly `Int.land`, `Int.lor`, `Int.lnot` and
  the `ShiftLeft`/`ShiftRight` instances on `ℤ`.
* `DIV` performs Python float division; a true-division result leaves the
  integer state space of this embedding, see `aluDiv` and `RunErr.floatDivision`.
* The wall clock used by the timer interrupt is abstracted into a boolean
  oracle (one boolean per loop iteration).
-/

namespace LS8

/-! ### Opcode constants (lines 8-29 of cpu.py) -/

def ADD : ℤ := 0b10100000

def CALL : ℤ := 0b01010000

def CMP : ℤ := 0b10100111

def DEC : ℤ := 0b01100110

def DIV : ℤ := 0b10100011

def HLT : ℤ := 0b00000001

def INC : ℤ := 0b01100101

def IRET : ℤ := 0b00010011

def JEQ : ℤ := 0b01010101

def JMP : ℤ := 0b01010100

def JNE : ℤ := 0b01010110

def LD : ℤ := 0b10000011

def LDI : ℤ := 0b10000010

def MUL : ℤ := 0b10100010

def OR : ℤ := 0b10101010

def POP : ℤ := 0b01000110

def PRA : ℤ := 0b01001000

def PRN : ℤ := 0b01000111

def PUSH : ℤ := 0b01000101

def RET : ℤ := 0b00010001

def ST : ℤ := 0b10000100

def SUB : ℤ := 0b10100001

/-- Reserved register number of the interrupt mask (line 33). -/
def IM : ℤ := 5

/-- Reserved register number of the interrupt status (line 34). -/
def IS : ℤ := 6

/-- Reserved register number of the stack pointer (line 35). -/
def SP : ℤ := 7

/-- CMP flag bit for less-than (line 39). -/
def FL_LT : ℤ := 0b100

/-- CMP flag bit for greater-than (line 40). -/
def FL_GT : ℤ := 0b010

/-- CMP flag bit for equal (line 41). -/
def FL_EQ : ℤ := 0b001

/-- Timer bit of the IS register (line 45). -/
def IS_TIMER : ℤ := 0b00000001

/-- The mutable state of a `CPU` instance (constructor, lines 52-67).
The `datetime` timer reference is abstracted into the oracle of `runFuel`,
and the branch table is a fixed function (`branchtable` below). -/
structure CPUState where
  pc : ℤ
  fl : ℤ
  ie : ℤ
  halted : Bool
  inst_set_pc : Bool
  ram : List ℤ
  reg : List ℤ
deriving DecidableEq

/-- Uncaught Python exceptions of the interpreter. -/
inductive RunErr where
  /-- Models `raise Exception(f"Invalid instruction {hex(ir)} at address {hex(self.pc)}")`,
  lines 240-242: carries the offending opcode and the PC it was fetched at. -/
  | invalidInstruction (ir pc : ℤ)
  /-- Python `IndexError` from a list subscript out of range. -/
  | indexError
  /-- Python `TypeError` (e.g. from indexing a list with `None`). -/
  | typeError
  /-- Python `ValueError` (e.g. `chr` of an out-of-range value). -/
  | valueError
  /-- Python `ZeroDivisionError` raised by `/=` with a zero divisor (line 154). -/
  | zeroDivision
  /-- Signals that `/=` produced a Python float, leaving the integer value space modelled
  here; see `aluDiv` for the exact-valued model of line 154. -/
  | floatDivision
  /-- Models `raise Exception("Unsupported ALU operation")`, line 170. -/
  | unsupportedALU
deriving DecidableEq

/-- Effective index of a Python list subscript: indices in `[-len, len)` are
valid, negative ones wrap by adding the length, anything else raises. -/
def pyIdx (len : ℕ) (i : ℤ) : Option ℕ :=
  if 0 ≤ i ∧ i < (len : ℤ) then some i.toNat
  else if -(len : ℤ) ≤ i ∧ i < 0 then some (i + (len : ℤ)).toNat
  else none

/-- Python list read `l[i]`. -/
def pyGet (l : List ℤ) (i : ℤ) : Option ℤ :=
  match pyIdx l.length i with
  | some n => l[n]?
  | none => none

/-- Python list write `l[i] = v`. -/
def pySet (l : List ℤ) (i : ℤ) (v : ℤ) : Option (List ℤ) :=
  match pyIdx l.length i with
  | some n => some (l.set n v)
  | none => none

deriving instance DecidableEq for Except

/-- A failed subscript becomes an uncaught `IndexError`. -/
def liftO : Option α → Except RunErr α
  | some a => .ok a
  | none => .error .indexError

/-- Embeds `ram_write` (lines 111-112): `self.ram[mar] = mdr`. -/
def ram_write (s : CPUState) (mdr mar : ℤ) : Except RunErr CPUState := do
  let ram1 ← liftO (pySet s.ram mar mdr)
  pure { s with ram := ram1 }

/-- Embeds `ram_read` (lines 114-115): `return self.ram[mar]`. -/
def ram_read (s : CPUState) (mar : ℤ) : Except RunErr ℤ :=
  liftO (pyGet s.ram mar)

/-- Embeds `push_val` (lines 117-119): decrement `reg[SP]`, then write the value at
the new `reg[7]`. -/
def push_val (s : CPUState) (val : ℤ) : Except RunErr CPUState := do
  let sp ← liftO (pyGet s.reg SP)
  let reg1 ← liftO (pySet s.reg SP (sp - 1))
  let s1 : CPUState := { s with reg := reg1 }
  let sp1 ← liftO (pyGet s1.reg 7)
  ram_write s1 val sp1

/-- Embeds `phandle_val` (lines 121-125): read the value at `reg[7]`, then increment
`reg[SP]`, returning the value. -/
def phandle_val (s : CPUState) : Except RunErr (ℤ × CPUState) := do
  let sp ← liftO (pyGet s.reg 7)
  let val ← liftO (pyGet s.ram sp)
  let reg1 ← liftO (pySet s.reg SP (sp + 1))
  pure (val, { s with reg := reg1 })

/-- Embeds `alu` (lines 144-170).  The `op` string is dispatched exactly as in the
source; binary operations receive `some reg_b`, the unary `DEC`/`INC` receive
`none` because their handlers pass Python `None` (lines 271, 274), and using
`None` as a list subscript would raise a `TypeError`.  `DIV` (line 154) is
Python true division: with a zero divisor it raises `ZeroDivisionError`,
otherwise its float result leaves the integer state space modelled here
(the exact value of that division is modelled separately by `aluDiv`). -/
def alu (s : CPUState) (op : String) (reg_a : ℤ) (reg_b : Option ℤ) :
    Except RunErr CPUState :=
  if op = "ADD" then do
    let a ← liftO (pyGet s.reg reg_a)
    let rb ← match reg_b with | some rb => pure rb | none => .error RunErr.typeError
    let b ← liftO (pyGet s.reg rb)
    let reg1 ← liftO (pySet s.reg reg_a (a + b))
    pure { s with reg := reg1 }
  else if op = "SUB" then do
    let a ← liftO (pyGet s.reg reg_a)
    let rb ← match reg_b with | some rb => pure rb | none => .error RunErr.typeError
    let b ← liftO (pyGet s.reg rb)
    let reg1 ← liftO (pySet s.reg reg_a (a - b))
    pure { s with reg := reg1 }
  else if op = "MUL" then do
    let a ← liftO (pyGet s.reg reg_a)
    let rb ← match reg_b with | some rb => pure rb | none => .error RunErr.typeError
    let b ← liftO (pyGet s.reg rb)
    let reg1 ← liftO (pySet s.reg reg_a (a * b))
    pure { s with reg := reg1 }
  else if op = "DIV" then do
    let a ← liftO (pyGet s.reg reg_a)
    let rb ← match reg_b with | some rb => pure rb | none => .error RunErr.typeError
    let b ← liftO (pyGet s.reg rb)
    let _ := a
    if b = 0 then .error RunErr.zeroDivision else .error RunErr.floatDivision
  else if op = "DEC" then do
    let a ← liftO (pyGet s.reg reg_a)
    let reg1 ← liftO (pySet s.reg reg_a (a - 1))
    pure { s with reg := reg1 }
  else if op = "INC" then do
    let a ← liftO (pyGet s.reg reg_a)
    let reg1 ← liftO (pySet s.reg reg_a (a + 1))
    pure { s with reg := reg1 }
  else if op = "CMP" then do
    let fl1 := Int.land s.fl 0x11111000
    let a ← liftO (pyGet s.reg reg_a)
    let rb ← match reg_b with | some rb => pure rb | none => .error RunErr.typeError
    let b ← liftO (pyGet s.reg rb)
    if a < b then pure { s with fl := Int.lor fl1 FL_LT }
    else if a > b then pure { s with fl := Int.lor fl1 FL_GT }
    else pure { s with fl := Int.lor fl1 FL_EQ }
  else if op = "OR" then do
    let a ← liftO (pyGet s.reg reg_a)
    let rb ← match reg_b with | some rb => pure rb | none => .error RunErr.typeError
    let b ← liftO (pyGet s.reg rb)
    let reg1 ← liftO (pySet s.reg reg_a (Int.lor a b))
    pure { s with reg := reg1 }
  else .error RunErr.unsupportedALU

/-- Exact-valued model of line 154, `self.reg[reg_a] /= self.reg[reg_b]`:
Python `/` is true division, raising `ZeroDivisionError` (modelled `none`)
when the divisor is zero.  The float result is modelled as the exact
rational quotient; at every concrete input used in the theorems below the
Python float result is exactly representable, so the two coincide there. -/
def aluDiv (a b : ℚ) : Option ℚ :=
  if b = 0 then none else some (a / b)

/-- Embeds `check_for_timer_int` (lines 172-182), with the wall-clock comparison
`diff.seconds >= 1` abstracted into the boolean `fires`: when it fires,
the timer bit is OR-ed into `reg[IS]`. -/
def check_for_timer_int (fires : Bool) (s : CPUState) : Except RunErr CPUState :=
  if fires then do
    let isv ← liftO (pyGet s.reg IS)
    let reg1 ← liftO (pySet s.reg IS (Int.lor isv IS_TIMER))
    pure { s with reg := reg1 }
  else pure s

/-- The loop `for r in range(7): self.push_val(self.reg[r])` (lines 199-200),
pushing `reg[r], reg[r+1], ...` for `k` iterations. -/
def pushRegsFrom (s : CPUState) (r : ℕ) : ℕ → Except RunErr CPUState
  | 0 => pure s
  | k + 1 => do
    let v ← liftO (pyGet s.reg (r : ℤ))
    let s1 ← push_val s v
    pushRegsFrom s1 (r + 1) k

/-- Body of the delivery (lines 193-203): the work done for the first
pending interrupt line `i` found by the scan in `handle_ints`. -/
def deliverInt (s : CPUState) (i : ℕ) : Except RunErr CPUState := do
  let s1 : CPUState := { s with ie := 0 }
  let isv ← liftO (pyGet s1.reg IS)
  let reg1 ← liftO (pySet s1.reg IS (Int.land isv (Int.lnot ((1 : ℤ) <<< (i : ℤ)))))
  let s2 : CPUState := { s1 with reg := reg1 }
  let s3 ← push_val s2 s2.pc
  let s4 ← push_val s3 s3.fl
  let s5 ← pushRegsFrom s4 0 7
  let vec ← ram_read s5 (0xf8 + (i : ℤ))
  pure { s5 with pc := vec }

/-- Embeds `handle_ints` (lines 184-205): if interrupts are enabled, scan bits 0-7
of `reg[IM] & reg[IS]` in order and deliver the first pending one, stopping
after it (the `break`); with no pending masked interrupt, or with interrupts
disabled, the state is unchanged. -/
def handle_ints (s : CPUState) : Except RunErr CPUState := do
  if s.ie = 0 then pure s
  else do
    let im ← liftO (pyGet s.reg IM)
    let isv ← liftO (pyGet s.reg IS)
    let masked_ints := Int.land im isv
    match (List.range 8).find? (fun (i : ℕ) => Int.land masked_ints ((1 : ℤ) <<< (Int.ofNat i)) != 0) with
    | some i => deliverInt s i
    | none => pure s

/-- Embeds `handle_ldi` (lines 248-249): `self.reg[operand_a] = operand_b`. -/
def handle_ldi (s : CPUState) (operand_a operand_b : ℤ) : Except RunErr CPUState := do
  let reg1 ← liftO (pySet s.reg operand_a operand_b)
  pure { s with reg := reg1 }

/-- Embeds `handle_prn` (lines 251-252): prints `self.reg[operand_a]`; the only
architectural effect is the register read (which can raise `IndexError`). -/
def handle_prn (s : CPUState) (operand_a operand_b : ℤ) : Except RunErr CPUState := do
  let _ := operand_b
  let _ ← liftO (pyGet s.reg operand_a)
  pure s

/-- Embeds `handle_pra` (lines 254-256): prints `chr(self.reg[operand_a])`; `chr`
raises `ValueError` outside `[0, 0x110000)`. -/
def handle_pra (s : CPUState) (operand_a operand_b : ℤ) : Except RunErr CPUState := do
  let _ := operand_b
  let v ← liftO (pyGet s.reg operand_a)
  if 0 ≤ v ∧ v < 0x110000 then pure s else .error RunErr.valueError

/-- Embeds `handle_add` (lines 258-259). -/
def handle_add (s : CPUState) (operand_a operand_b : ℤ) : Except RunErr CPUState :=
  alu s "ADD" operand_a (some operand_b)

/-- Embeds `handle_sub` (lines 261-262). -/
def handle_sub (s : CPUState) (operand_a operand_b : ℤ) : Except RunErr CPUState :=
  alu s "SUB" operand_a (some operand_b)

/-- Embeds `handle_mul` (lines 264-265). -/
def handle_mul (s : CPUState) (operand_a operand_b : ℤ) : Except RunErr CPUState :=
  alu s "MUL" operand_a (some operand_b)

/-- Embeds `handle_div` (lines 267-268). -/
def handle_div (s : CPUState) (operand_a operand_b : ℤ) : Except RunErr CPUState :=
  alu s "DIV" operand_a (some operand_b)

/-- Embeds `handle_dec` (lines 270-271): passes Python `None` as `reg_b`. -/
def handle_dec (s : CPUState) (operand_a operand_b : ℤ) : Except RunErr CPUState :=
  let _ := operand_b
  alu s "DEC" operand_a none

/-- Embeds `handle_inc` (lines 273-274): passes Python `None` as `reg_b`. -/
def handle_inc (s : CPUState) (operand_a operand_b : ℤ) : Except RunErr CPUState :=
  let _ := operand_b
  alu s "INC" operand_a none

/-- Embeds `handle_or` (lines 276-277). -/
def handle_or (s : CPUState) (operand_a operand_b : ℤ) : Except RunErr CPUState :=
  alu s "OR" operand_a (some operand_b)

/-- Embeds `handle_pop` (lines 279-280): `self.reg[operand_a] = self.phandle_val()`. -/
def handle_pop (s : CPUState) (operand_a operand_b : ℤ) : Except RunErr CPUState := do
  let _ := operand_b
  let r ← phandle_val s
  let reg1 ← liftO (pySet r.2.reg operand_a r.1)
  pure { r.2 with reg := reg1 }

/-- Embeds `handle_push` (lines 282-283): `self.push_val(self.reg[operand_a])`. -/
def handle_push (s : CPUState) (operand_a operand_b : ℤ) : Except RunErr CPUState := do
  let _ := operand_b
  let v ← liftO (pyGet s.reg operand_a)
  push_val s v

/-- Embeds `handle_call` (lines 285-287): pushes `pc + 2`, then jumps to
`self.reg[operand_a]` (read after the push, as in the source). -/
def handle_call (s : CPUState) (operand_a operand_b : ℤ) : Except RunErr CPUState := do
  let _ := operand_b
  let s1 ← push_val s (s.pc + 2)
  let v ← liftO (pyGet s1.reg operand_a)
  pure { s1 with pc := v }

/-- Embeds `handle_ret` (lines 289-290): `self.pc = self.phandle_val()`. -/
def handle_ret (s : CPUState) (operand_a operand_b : ℤ) : Except RunErr CPUState := do
  let _ := operand_a
  let _ := operand_b
  let r ← phandle_val s
  pure { r.2 with pc := r.1 }

/-- Embeds `handle_ld` (lines 292-293): `self.reg[operand_a] = self.ram_read(self.reg[operand_b])`. -/
def handle_ld (s : CPUState) (operand_a operand_b : ℤ) : Except RunErr CPUState := do
  let rb ← liftO (pyGet s.reg operand_b)
  let v ← ram_read s rb
  let reg1 ← liftO (pySet s.reg operand_a v)
  pure { s with reg := reg1 }

/-- Embeds `handle_st` (lines 295-296): `self.ram_write(self.reg[operand_b], self.reg[operand_a])`. -/
def handle_st (s : CPUState) (operand_a operand_b : ℤ) : Except RunErr CPUState := do
  let vb ← liftO (pyGet s.reg operand_b)
  let va ← liftO (pyGet s.reg operand_a)
  ram_write s vb va

/-- Embeds `handle_jmp` (lines 298-299): `self.pc = self.reg[operand_a]`. -/
def handle_jmp (s : CPUState) (operand_a operand_b : ℤ) : Except RunErr CPUState := do
  let _ := operand_b
  let v ← liftO (pyGet s.reg operand_a)
  pure { s with pc := v }

/-- Embeds `handle_jeq` (lines 301-305): on a set equal flag jump to
`reg[operand_a]`, otherwise cancel the sets-PC flag. -/
def handle_jeq (s : CPUState) (operand_a operand_b : ℤ) : Except RunErr CPUState := do
  let _ := operand_b
  if Int.land s.fl FL_EQ ≠ 0 then do
    let v ← liftO (pyGet s.reg operand_a)
    pure { s with pc := v }
  else pure { s with inst_set_pc := false }

/-- Embeds `handle_jne` (lines 307-311): on a clear equal flag jump to
`reg[operand_a]`, otherwise cancel the sets-PC flag. -/
def handle_jne (s : CPUState) (operand_a operand_b : ℤ) : Except RunErr CPUState := do
  let _ := operand_b
  if Int.land s.fl FL_EQ = 0 then do
    let v ← liftO (pyGet s.reg operand_a)
    pure { s with pc := v }
  else pure { s with inst_set_pc := false }

/-- Embeds `handle_cmp` (lines 313-314). -/
def handle_cmp (s : CPUState) (operand_a operand_b : ℤ) : Except RunErr CPUState :=
  alu s "CMP" operand_a (some operand_b)

/-- The loop `for i in range(6, -1, -1): self.reg[i] = self.phandle_val()`
(lines 318-319), popping into `reg[i], reg[i-1], ...` for `k` iterations. -/
def popRegsDown (s : CPUState) (i : ℕ) : ℕ → Except RunErr CPUState
  | 0 => pure s
  | k + 1 => do
    let r ← phandle_val s
    let reg1 ← liftO (pySet r.2.reg (i : ℤ) r.1)
    popRegsDown { r.2 with reg := reg1 } (i - 1) k

/-- Embeds `handle_iret` (lines 316-324): pop registers 6 down to 0, then FL, then
PC, and re-enable interrupts. -/
def handle_iret (s : CPUState) (operand_a operand_b : ℤ) : Except RunErr CPUState := do
  let _ := operand_a
  let _ := operand_b
  let s1 ← popRegsDown s 6 7
  let r ← phandle_val s1
  let s3 : CPUState := { r.2 with fl := r.1 }
  let r2 ← phandle_val s3
  pure { r2.2 with pc := r2.1, ie := 1 }

/-- Embeds `handle_hlt` (lines 326-327). -/
def handle_hlt (s : CPUState) (operand_a operand_b : ℤ) : Except RunErr CPUState := do
  let _ := operand_a
  let _ := operand_b
  pure { s with halted := true }

/-- The branch table (lines 70-93) as a finite opcode-to-handler map;
`none` corresponds to `ir not in self.branchtable`. -/
def branchtable (ir : ℤ) : Option (CPUState → ℤ → ℤ → Except RunErr CPUState) :=
  if ir = ADD then some handle_add
  else if ir = CALL then some handle_call
  else if ir = CMP then some handle_cmp
  else if ir = DEC then some handle_dec
  else if ir = DIV then some handle_div
  else if ir = HLT then some handle_hlt
  else if ir = INC then some handle_inc
  else if ir = IRET then some handle_iret
  else if ir = JEQ then some handle_jeq
  else if ir = JMP then some handle_jmp
  else if ir = JNE then some handle_jne
  else if ir = LD then some handle_ld
  else if ir = LDI then some handle_ldi
  else if ir = MUL then some handle_mul
  else if ir = OR then some handle_or
  else if ir = POP then some handle_pop
  else if ir = PRA then some handle_pra
  else if ir = PRN then some handle_prn
  else if ir = PUSH then some handle_push
  else if ir = RET then some handle_ret
  else if ir = ST then some handle_st
  else if ir = SUB then some handle_sub
  else none

/-- One fetch-decode-dispatch-advance step, the body of the `while` loop
after the interrupt checks (lines 231-246): fetch the opcode and both
operand bytes, decode the size and sets-PC bit from the opcode, dispatch
through the branch table (an unmapped opcode raises the fatal invalid
instruction error carrying the opcode and the PC), and advance the PC by
the instruction size unless the instruction set the PC. -/
def execInstr (s : CPUState) : Except RunErr CPUState := do
  let ir ← liftO (pyGet s.ram s.pc)
  let operand_a ← ram_read s (s.pc + 1)
  let operand_b ← ram_read s (s.pc + 2)
  let inst_size := Int.land (ir >>> (6 : ℤ)) 0b11 + 1
  let s1 : CPUState := { s with inst_set_pc := Int.land (ir >>> (4 : ℤ)) 0b1 = 1 }
  match branchtable ir with
  | some h => do
    let s2 ← h s1 operand_a operand_b
    if s2.inst_set_pc then pure s2 else pure { s2 with pc := s2.pc + inst_size }
  | none => .error (RunErr.invalidInstruction ir s1.pc)

/-- Embeds `run` (lines 222-246) with an explicit iteration bound: each iteration
checks the timer (wall clock abstracted into the oracle), delivers pending
interrupts, and executes one instruction; the loop stops at a halted state,
and an uncaught exception aborts the whole run.  Exhausting the bound
returns the state reached so far. -/
def runFuel (oracle : ℕ → Bool) : ℕ → CPUState → Except RunErr CPUState
  | 0, s => pure s
  | fuel + 1, s =>
    if s.halted then pure s
    else do
      let s1 ← check_for_timer_int (oracle fuel) s
      let s2 ← handle_ints s1
      let s3 ← execInstr s2
      runFuel oracle fuel s3

/-- The state built by `CPU.__init__` (lines 52-67): zeroed PC and flags,
interrupts enabled, 256 zeroed memory cells, 8 zeroed registers except the
stack pointer at `0xf4`. -/
def initCPU : CPUState where
  pc := 0
  fl := 0
  ie := 1
  halted := false
  inst_set_pc := false
  ram := List.replicate 256 0
  reg := (List.replicate 8 0).set 7 0xf4

/-! ### Concrete machine states used in the witnesses and counterexamples -/

/-- The concrete machine state used to exhibit the missing wraparound:
registers `[255, 1, 0, 0, 0, 0, 0, 0xf4]`, everything else as at reset. -/
def c1State : CPUState :=
  { initCPU with reg := [255, 1, 0, 0, 0, 0, 0, 0xf4] }

/-- Concrete state for the CMP witness: registers `[3, 5, 0, ..., 0xf4]`
and stale flags `0b111`. -/
def c2State : CPUState :=
  { initCPU with reg := [3, 5, 0, 0, 0, 0, 0, 0xf4], fl := 0b111 }

/-- Concrete state for the interrupt-delivery witness: IM and IS both `0b101`,
SP at reset, a vector byte at `0xf8`. -/
def w3State : CPUState :=
  CPUState.mk 100 9 1 false false ((List.replicate 256 0).set 248 111)
    [10, 20, 30, 40, 50, 5, 5, 244]

/-- Concrete pre-interrupt state for the IRET analysis: IM and IS both 1,
SP at reset, vector byte 111 at `0xf8`. -/
def c4State : CPUState :=
  CPUState.mk 100 9 1 false false ((List.replicate 256 0).set 248 111)
    [10, 20, 30, 40, 50, 1, 1, 244]

/-- The memory image after the delivery triggered from `c4State`. -/
def c4Ram : List ℤ :=
  (((((((((((List.replicate 256 0).set 248 111).set 243 100).set 242 9).set 241 10).set 240 20).set 239 30).set 238 40).set 237 50).set 236 1).set 235 0)

/-- The architectural state right after that delivery. -/
def c4B : CPUState := CPUState.mk 111 9 0 false false c4Ram [10, 20, 30, 40, 50, 1, 0, 235]

/-- Concrete state for the stack round-trip witness: register 0 holds 42. -/
def c5State : CPUState :=
  CPUState.mk 0 0 1 false false (List.replicate 256 0) [42, 0, 0, 0, 0, 0, 0, 244]

/-- The reset state loaded with the single byte `0xFF`. -/
def ffState : CPUState :=
  CPUState.mk 0 0 1 false false ((List.replicate 256 0).set 0 255)
    ((List.replicate 8 0).set 7 0xf4)

/-- State with 7 stored in the last memory cell, used for the silent-wrap
counterexample. -/
def c7State : CPUState :=
  CPUState.mk 0 0 1 false false ((List.replicate 256 0).set 255 7)
    ((List.replicate 8 0).set 7 0xf4)

/-- Claim C8 counterexample state: register 0 holds 10, register 1 holds 0,
register 2 holds 2. -/
def c8State : CPUState :=
  CPUState.mk 0 0 1 false false (List.replicate 256 0) [10, 0, 2, 0, 0, 0, 0, 0xf4]

/-- Memory image whose first instruction is JEQ register 0. -/
def jeqRam : List ℤ := (List.replicate 256 0).set 0 0b01010101

/-- Memory image whose first instruction is JNE register 0. -/
def jneRam : List ℤ := (List.replicate 256 0).set 0 0b01010110

/-- Memory image `[LDI, 8, 5]`: an LDI naming the out-of-range register 8. -/
def ldiOOBState : CPUState :=
  CPUState.mk 0 0 1 false false (((List.replicate 256 0).set 0 0b10000010).set 1 8 |>.set 2 5)
    ((List.replicate 8 0).set 7 0xf4)

/-! ### Helper lemmas -/

theorem pyIdx_of_lt {len n : ℕ} (h : n < len) : pyIdx len (n : ℤ) = some n := by
  have h0 : (0 : ℤ) ≤ (n : ℤ) := Int.natCast_nonneg n
  have h1 : (n : ℤ) < (len : ℤ) := by exact_mod_cast h
  simp [pyIdx, h0, h1]

theorem pyGet_of_lt {l : List ℤ} {n : ℕ} (h : n < l.length) : pyGet l (n : ℤ) = l[n]? := by
  simp [pyGet, pyIdx_of_lt h]

theorem pySet_of_lt {l : List ℤ} {n : ℕ} (v : ℤ) (h : n < l.length) :
    pySet l (n : ℤ) v = some (l.set n v) := by
  simp [pySet, pyIdx_of_lt h]

theorem pyIdx_of_neg {len : ℕ} {i : ℤ} (h1 : -(len : ℤ) ≤ i) (h2 : i < 0) :
    pyIdx len i = some (i + (len : ℤ)).toNat := by
  simp only [pyIdx]
  rw [if_neg (by omega), if_pos (by omega)]

theorem pyIdx_of_of_bounds {len : ℕ} {i : ℤ} (h : i < -(len : ℤ) ∨ (len : ℤ) ≤ i) :
    pyIdx len i = none := by
  simp only [pyIdx]
  rw [if_neg (by omega), if_neg (by omega)]

theorem pyGet_nonneg {l : List ℤ} {i : ℤ} (h0 : 0 ≤ i) (h : i < (l.length : ℤ)) :
    pyGet l i = l[i.toNat]? := by
  simp only [pyGet, pyIdx]
  rw [if_pos (by constructor <;> omega)]

theorem pySet_nonneg {l : List ℤ} {i : ℤ} (v : ℤ) (h0 : 0 ≤ i) (h : i < (l.length : ℤ)) :
    pySet l i v = some (l.set i.toNat v) := by
  simp only [pySet, pyIdx]
  rw [if_pos (by constructor <;> omega)]

theorem pyGet_neg {l : List ℤ} {i : ℤ} (h1 : -(l.length : ℤ) ≤ i) (h2 : i < 0) :
    pyGet l i = l[(i + l.length).toNat]? := by
  simp only [pyGet, pyIdx_of_neg h1 h2]

theorem pySet_neg {l : List ℤ} {i : ℤ} (v : ℤ) (h1 : -(l.length : ℤ) ≤ i) (h2 : i < 0) :
    pySet l i v = some (l.set (i + l.length).toNat v) := by
  simp only [pySet, pyIdx_of_neg h1 h2]

theorem exceptBind_ok {α β : Type} (a : α) (f : α → Except RunErr β) :
    (Except.ok a >>= f) = f a := rfl

theorem exceptBind_error {α β : Type} (e : RunErr) (f : α → Except RunErr β) :
    ((Except.error e : Except RunErr α) >>= f) = Except.error e := rfl

theorem land_mask_mod8 (m : ℕ) : (m &&& 0x11111000) % 8 = 0 := by
  have h8 : (8 : ℕ) = 2 ^ 3 := by norm_num
  rw [h8]
  apply Nat.eq_of_testBit_eq
  intro j
  rw [Nat.testBit_mod_two_pow, Nat.testBit_land, Nat.zero_testBit]
  by_cases hj : j < 3
  · have hM : Nat.testBit 0x11111000 j = false := by
      interval_cases j <;> decide
    simp [hj, hM]
  · simp [hj]

theorem ldiff_mask_mod8 (m : ℕ) : (Nat.ldiff 0x11111000 m) % 8 = 0 := by
  have h8 : (8 : ℕ) = 2 ^ 3 := by norm_num
  rw [h8]
  apply Nat.eq_of_testBit_eq
  intro j
  rw [Nat.testBit_mod_two_pow, Nat.testBit_ldiff, Nat.zero_testBit]
  by_cases hj : j < 3
  · have hM : Nat.testBit 0x11111000 j = false := by
      interval_cases j <;> decide
    simp [hj, hM]
  · simp [hj]

theorem lor_mod8 (x c : ℕ) (hx : x % 8 = 0) (hc : c < 8) : (x ||| c) % 8 = c := by
  have h8 : (8 : ℕ) = 2 ^ 3 := by norm_num
  have hxb : ∀ j, j < 3 → x.testBit j = false := by
    intro j hj
    have h1 : (x % 2 ^ 3).testBit j = false := by
      rw [← h8, hx]
      exact Nat.zero_testBit j
    rw [Nat.testBit_mod_two_pow] at h1
    simpa [hj] using h1
  rw [h8]
  apply Nat.eq_of_testBit_eq
  intro j
  rw [Nat.testBit_mod_two_pow, Nat.testBit_lor]
  by_cases hj : j < 3
  · simp [hj, hxb j hj]
  · have : c.testBit j = false := by
      apply Nat.testBit_lt_two_pow
      calc c < 8 := hc
        _ = 2 ^ 3 := h8
        _ ≤ 2 ^ j := Nat.pow_le_pow_right (by norm_num) (by omega)
    simp [hj, this]

/-- Whatever the previous flags were, the CMP mask-then-or sequence of
lines 160-166 leaves exactly the OR-ed flag bit in the low three bits. -/
theorem cmp_fl_mod8 (fl : ℤ) (c : ℕ) (hc : c < 8) :
    (Int.lor (Int.land fl 0x11111000) (c : ℤ)) % 8 = (c : ℤ) := by
  obtain ⟨x, hx, hx8⟩ : ∃ x : ℕ, Int.land fl 0x11111000 = (x : ℤ) ∧ x % 8 = 0 := by
    cases fl with
    | ofNat m => exact ⟨m &&& 0x11111000, rfl, land_mask_mod8 m⟩
    | negSucc m => exact ⟨Nat.ldiff 0x11111000 m, rfl, ldiff_mask_mod8 m⟩
  rw [hx]
  have hlor : Int.lor (x : ℤ) (c : ℤ) = ((x ||| c : ℕ) : ℤ) := rfl
  rw [hlor]
  have hm := lor_mod8 x c hx8 hc
  omega

theorem and_add_ldiff (m n : ℕ) : (m &&& n) + Nat.ldiff m n = m := by
  induction m using Nat.binaryRec generalizing n with
  | z =>
    have h1 : (0 &&& n) = 0 := by simp
    have h2 : Nat.ldiff 0 n = 0 := Nat.eq_of_testBit_eq fun j => by
      rw [Nat.testBit_ldiff, Nat.zero_testBit]
      simp
    simp [h1, h2]
  | f b m ih =>
    rw [← Nat.bit_decomp n, Nat.land_bit, Nat.ldiff_bit]
    rw [Nat.bit_val, Nat.bit_val, Nat.bit_val]
    have := ih (Nat.div2 n)
    cases b <;> cases Nat.bodd n <;> simp <;> omega

theorem ldiff_eq_sub (m n : ℕ) : Nat.ldiff m n = m - (m &&& n) := by
  have := and_add_ldiff m n
  omega

theorem push_val_ok (s : CPUState) (v : ℤ) (sp : ℤ)
    (r0 r1 r2 r3 r4 r5 r6 : ℤ)
    (hreg : s.reg = [r0, r1, r2, r3, r4, r5, r6, sp])
    (h1 : 1 ≤ sp) (h2 : sp ≤ (s.ram.length : ℤ)) :
    push_val s v = .ok { s with reg := [r0, r1, r2, r3, r4, r5, r6, sp - 1],
                                ram := s.ram.set (sp - 1).toNat v } := by
  have h7 : Int.toNat 7 = 7 := rfl
  have hset : pySet s.ram (sp - 1) v = some (s.ram.set (sp - 1).toNat v) := by
    simp only [pySet, pyIdx]
    rw [if_pos (by constructor <;> omega)]
  have hset7 : pySet ([r0, r1, r2, r3, r4, r5, r6, sp]) 7 (sp - 1) =
      some [r0, r1, r2, r3, r4, r5, r6, sp - 1] := by
    norm_num [pySet, pyIdx, h7]
  norm_num [push_val, ram_write, hreg, pyGet, pyIdx, liftO, SP, hset7, hset, h7,
    bind, Except.bind, pure, Except.pure, Functor.map, Except.map]

theorem phandle_val_ok (s : CPUState) (sp v : ℤ)
    (r0 r1 r2 r3 r4 r5 r6 : ℤ)
    (hreg : s.reg = [r0, r1, r2, r3, r4, r5, r6, sp])
    (h0 : 0 ≤ sp) (h2 : sp < (s.ram.length : ℤ))
    (hv : s.ram[sp.toNat]? = some v) :
    phandle_val s = .ok (v, { s with reg := [r0, r1, r2, r3, r4, r5, r6, sp + 1] }) := by
  have h7 : Int.toNat 7 = 7 := rfl
  have hget : pyGet s.ram sp = some v := by rw [pyGet_nonneg h0 h2, hv]
  have hset7 : pySet ([r0, r1, r2, r3, r4, r5, r6, sp]) 7 (sp + 1) =
      some [r0, r1, r2, r3, r4, r5, r6, sp + 1] := by
    norm_num [pySet, pyIdx, h7]
  have hget7 : pyGet ([r0, r1, r2, r3, r4, r5, r6, sp]) 7 = some sp := by
    norm_num [pyGet, pyIdx, h7]
  norm_num [phandle_val, hreg, liftO, SP, hset7, hget7, hget, h7,
    bind, Except.bind, pure, Except.pure, Functor.map, Except.map]

theorem deliverInt_ok (s : CPUState) (i : ℕ) (sp : ℤ)
    (r0 r1 r2 r3 r4 im isv z vec : ℤ)
    (hreg : s.reg = [r0, r1, r2, r3, r4, im, isv, sp])
    (hram : s.ram.length = 256)
    (hsp1 : 9 ≤ sp) (hsp2 : sp ≤ 244)
    (hi : i < 8)
    (hz : z = Int.land isv (Int.lnot ((1 : ℤ) <<< (i : ℤ))))
    (hvec : s.ram[248 + i]? = some vec) :
    deliverInt s i = .ok (CPUState.mk vec s.fl 0 s.halted s.inst_set_pc
      ((((((((((s.ram.set (sp - 1).toNat s.pc).set (sp - 2).toNat s.fl).set (sp - 3).toNat r0).set (sp - 4).toNat r1).set (sp - 5).toNat r2).set (sp - 6).toNat r3).set (sp - 7).toNat r4).set (sp - 8).toNat im).set (sp - 9).toNat z))
      [r0, r1, r2, r3, r4, im, z, sp - 9]) := by
  subst hz
  have h6 : Int.toNat 6 = 6 := rfl
  have t0 : Int.toNat 0 = 0 := rfl
  have t1 : Int.toNat 1 = 1 := rfl
  have t2 : Int.toNat 2 = 2 := rfl
  have t3 : Int.toNat 3 = 3 := rfl
  have t4 : Int.toNat 4 = 4 := rfl
  have t5 : Int.toNat 5 = 5 := rfl
  have t6 : Int.toNat 6 = 6 := rfl
  have t7 : Int.toNat 7 = 7 := rfl
  have hg6 : pyGet s.reg IS = some isv := by
    rw [hreg]
    norm_num [pyGet, pyIdx, IS, h6]
  have hs6 : pySet s.reg IS (Int.land isv (Int.lnot ((1 : ℤ) <<< (i : ℤ)))) = some [r0, r1, r2, r3, r4, im, (Int.land isv (Int.lnot ((1 : ℤ) <<< (i : ℤ)))), sp] := by
    rw [hreg]
    norm_num [pySet, pyIdx, IS, h6]
  have hp1 := push_val_ok
    (CPUState.mk s.pc s.fl 0 s.halted s.inst_set_pc s.ram
      [r0, r1, r2, r3, r4, im, (Int.land isv (Int.lnot ((1 : ℤ) <<< (i : ℤ)))), sp]) s.pc
    (sp) r0 r1 r2 r3 r4 im (Int.land isv (Int.lnot ((1 : ℤ) <<< (i : ℤ)))) rfl (by omega)
    (by show (sp) ≤ ((s.ram.length : ℕ) : ℤ); omega)
  have hp2 := push_val_ok
    (CPUState.mk s.pc s.fl 0 s.halted s.inst_set_pc (s.ram.set (sp - 1).toNat s.pc)
      [r0, r1, r2, r3, r4, im, (Int.land isv (Int.lnot ((1 : ℤ) <<< (i : ℤ)))), sp - 1]) s.fl
    (sp - 1) r0 r1 r2 r3 r4 im (Int.land isv (Int.lnot ((1 : ℤ) <<< (i : ℤ)))) rfl (by omega)
    (by show (sp - 1) ≤ (((s.ram.set (sp - 1).toNat s.pc).length : ℕ) : ℤ)
        simp only [List.length_set]
        omega)
  rw [show sp - 1 - 1 = sp - 2 by omega] at hp2
  have hp3 := push_val_ok
    (CPUState.mk s.pc s.fl 0 s.halted s.inst_set_pc ((s.ram.set (sp - 1).toNat s.pc).set (sp - 2).toNat s.fl)
      [r0, r1, r2, r3, r4, im, (Int.land isv (Int.lnot ((1 : ℤ) <<< (i : ℤ)))), sp - 2]) r0
    (sp - 2) r0 r1 r2 r3 r4 im (Int.land isv (Int.lnot ((1 : ℤ) <<< (i : ℤ)))) rfl (by omega)
    (by show (sp - 2) ≤ ((((s.ram.set (sp - 1).toNat s.pc).set (sp - 2).toNat s.fl).length : ℕ) : ℤ)
        simp only [List.length_set]
        omega)
  rw [show sp - 2 - 1 = sp - 3 by omega] at hp3
  have hp4 := push_val_ok
    (CPUState.mk s.pc s.fl 0 s.halted s.inst_set_pc (((s.ram.set (sp - 1).toNat s.pc).set (sp - 2).toNat s.fl).set (sp - 3).toNat r0)
      [r0, r1, r2, r3, r4, im, (Int.land isv (Int.lnot ((1 : ℤ) <<< (i : ℤ)))), sp - 3]) r1
    (sp - 3) r0 r1 r2 r3 r4 im (Int.land isv (Int.lnot ((1 : ℤ) <<< (i : ℤ)))) rfl (by omega)
    (by show (sp - 3) ≤ (((((s.ram.set (sp - 1).toNat s.pc).set (sp - 2).toNat s.fl).set (sp - 3).toNat r0).length : ℕ) : ℤ)
        simp only [List.length_set]
        omega)
  rw [show sp - 3 - 1 = sp - 4 by omega] at hp4
  have hp5 := push_val_ok
    (CPUState.mk s.pc s.fl 0 s.halted s.inst_set_pc ((((s.ram.set (sp - 1).toNat s.pc).set (sp - 2).toNat s.fl).set (sp - 3).toNat r0).set (sp - 4).toNat r1)
      [r0, r1, r2, r3, r4, im, (Int.land isv (Int.lnot ((1 : ℤ) <<< (i : ℤ)))), sp - 4]) r2
    (sp - 4) r0 r1 r2 r3 r4 im (Int.land isv (Int.lnot ((1 : ℤ) <<< (i : ℤ)))) rfl (by omega)
    (by show (sp - 4) ≤ ((((((s.ram.set (sp - 1).toNat s.pc).set (sp - 2).toNat s.fl).set (sp - 3).toNat r0).set (sp - 4).toNat r1).length : ℕ) : ℤ)
        simp only [List.length_set]
        omega)
  rw [show sp - 4 - 1 = sp - 5 by omega] at hp5
  have hp6 := push_val_ok
    (CPUState.mk s.pc s.fl 0 s.halted s.inst_set_pc (((((s.ram.set (sp - 1).toNat s.pc).set (sp - 2).toNat s.fl).set (sp - 3).toNat r0).set (sp - 4).toNat r1).set (sp - 5).toNat r2)
      [r0, r1, r2, r3, r4, im, (Int.land isv (Int.lnot ((1 : ℤ) <<< (i : ℤ)))), sp - 5]) r3
    (sp - 5) r0 r1 r2 r3 r4 im (Int.land isv (Int.lnot ((1 : ℤ) <<< (i : ℤ)))) rfl (by omega)
    (by show (sp - 5) ≤ (((((((s.ram.set (sp - 1).toNat s.pc).set (sp - 2).toNat s.fl).set (sp - 3).toNat r0).set (sp - 4).toNat r1).set (sp - 5).toNat r2).length : ℕ) : ℤ)
        simp only [List.length_set]
        omega)
  rw [show sp - 5 - 1 = sp - 6 by omega] at hp6
  have hp7 := push_val_ok
    (CPUState.mk s.pc s.fl 0 s.halted s.inst_set_pc ((((((s.ram.set (sp - 1).toNat s.pc).set (sp - 2).toNat s.fl).set (sp - 3).toNat r0).set (sp - 4).toNat r1).set (sp - 5).toNat r2).set (sp - 6).toNat r3)
      [r0, r1, r2, r3, r4, im, (Int.land isv (Int.lnot ((1 : ℤ) <<< (i : ℤ)))), sp - 6]) r4
    (sp - 6) r0 r1 r2 r3 r4 im (Int.land isv (Int.lnot ((1 : ℤ) <<< (i : ℤ)))) rfl (by omega)
    (by show (sp - 6) ≤ ((((((((s.ram.set (sp - 1).toNat s.pc).set (sp - 2).toNat s.fl).set (sp - 3).toNat r0).set (sp - 4).toNat r1).set (sp - 5).toNat r2).set (sp - 6).toNat r3).length : ℕ) : ℤ)
        simp only [List.length_set]
        omega)
  rw [show sp - 6 - 1 = sp - 7 by omega] at hp7
  have hp8 := push_val_ok
    (CPUState.mk s.pc s.fl 0 s.halted s.inst_set_pc (((((((s.ram.set (sp - 1).toNat s.pc).set (sp - 2).toNat s.fl).set (sp - 3).toNat r0).set (sp - 4).toNat r1).set (sp - 5).toNat r2).set (sp - 6).toNat r3).set (sp - 7).toNat r4)
      [r0, r1, r2, r3, r4, im, (Int.land isv (Int.lnot ((1 : ℤ) <<< (i : ℤ)))), sp - 7]) im
    (sp - 7) r0 r1 r2 r3 r4 im (Int.land isv (Int.lnot ((1 : ℤ) <<< (i : ℤ)))) rfl (by omega)
    (by show (sp - 7) ≤ (((((((((s.ram.set (sp - 1).toNat s.pc).set (sp - 2).toNat s.fl).set (sp - 3).toNat r0).set (sp - 4).toNat r1).set (sp - 5).toNat r2).set (sp - 6).toNat r3).set (sp - 7).toNat r4).length : ℕ) : ℤ)
        simp only [List.length_set]
        omega)
  rw [show sp - 7 - 1 = sp - 8 by omega] at hp8
  have hp9 := push_val_ok
    (CPUState.mk s.pc s.fl 0 s.halted s.inst_set_pc ((((((((s.ram.set (sp - 1).toNat s.pc).set (sp - 2).toNat s.fl).set (sp - 3).toNat r0).set (sp - 4).toNat r1).set (sp - 5).toNat r2).set (sp - 6).toNat r3).set (sp - 7).toNat r4).set (sp - 8).toNat im)
      [r0, r1, r2, r3, r4, im, (Int.land isv (Int.lnot ((1 : ℤ) <<< (i : ℤ)))), sp - 8]) (Int.land isv (Int.lnot ((1 : ℤ) <<< (i : ℤ))))
    (sp - 8) r0 r1 r2 r3 r4 im (Int.land isv (Int.lnot ((1 : ℤ) <<< (i : ℤ)))) rfl (by omega)
    (by show (sp - 8) ≤ ((((((((((s.ram.set (sp - 1).toNat s.pc).set (sp - 2).toNat s.fl).set (sp - 3).toNat r0).set (sp - 4).toNat r1).set (sp - 5).toNat r2).set (sp - 6).toNat r3).set (sp - 7).toNat r4).set (sp - 8).toNat im).length : ℕ) : ℤ)
        simp only [List.length_set]
        omega)
  rw [show sp - 8 - 1 = sp - 9 by omega] at hp9
  have hr0 : pyGet [r0, r1, r2, r3, r4, im, (Int.land isv (Int.lnot ((1 : ℤ) <<< (i : ℤ)))), sp - 2] (0 : ℤ) = some r0 := by
    norm_num [pyGet, pyIdx, t0]
  have hr1 : pyGet [r0, r1, r2, r3, r4, im, (Int.land isv (Int.lnot ((1 : ℤ) <<< (i : ℤ)))), sp - 3] (1 : ℤ) = some r1 := by
    norm_num [pyGet, pyIdx, t1]
  have hr2 : pyGet [r0, r1, r2, r3, r4, im, (Int.land isv (Int.lnot ((1 : ℤ) <<< (i : ℤ)))), sp - 4] (2 : ℤ) = some r2 := by
    norm_num [pyGet, pyIdx, t2]
  have hr3 : pyGet [r0, r1, r2, r3, r4, im, (Int.land isv (Int.lnot ((1 : ℤ) <<< (i : ℤ)))), sp - 5] (3 : ℤ) = some r3 := by
    norm_num [pyGet, pyIdx, t3]
  have hr4 : pyGet [r0, r1, r2, r3, r4, im, (Int.land isv (Int.lnot ((1 : ℤ) <<< (i : ℤ)))), sp - 6] (4 : ℤ) = some r4 := by
    norm_num [pyGet, pyIdx, t4]
  have hr5 : pyGet [r0, r1, r2, r3, r4, im, (Int.land isv (Int.lnot ((1 : ℤ) <<< (i : ℤ)))), sp - 7] (5 : ℤ) = some im := by
    norm_num [pyGet, pyIdx, t5]
  have hr6 : pyGet [r0, r1, r2, r3, r4, im, (Int.land isv (Int.lnot ((1 : ℤ) <<< (i : ℤ)))), sp - 8] (6 : ℤ) = some (Int.land isv (Int.lnot ((1 : ℤ) <<< (i : ℤ)))) := by
    norm_num [pyGet, pyIdx, t6]
  have htn : (248 + (i : ℤ)).toNat = 248 + i := by omega
  have hvr : pyGet (((((((((s.ram.set (sp - 1).toNat s.pc).set (sp - 2).toNat s.fl).set (sp - 3).toNat r0).set (sp - 4).toNat r1).set (sp - 5).toNat r2).set (sp - 6).toNat r3).set (sp - 7).toNat r4).set (sp - 8).toNat im).set (sp - 9).toNat (Int.land isv (Int.lnot ((1 : ℤ) <<< (i : ℤ))))) (248 + (i : ℤ)) = some vec := by
    rw [pyGet_nonneg (by omega) (by simp only [List.length_set, hram]; omega), htn]
    rw [List.getElem?_set_ne (by omega)]
    rw [List.getElem?_set_ne (by omega)]
    rw [List.getElem?_set_ne (by omega)]
    rw [List.getElem?_set_ne (by omega)]
    rw [List.getElem?_set_ne (by omega)]
    rw [List.getElem?_set_ne (by omega)]
    rw [List.getElem?_set_ne (by omega)]
    rw [List.getElem?_set_ne (by omega)]
    rw [List.getElem?_set_ne (by omega)]
    exact hvec
  simp only [deliverInt, pushRegsFrom, ram_read, liftO, hg6, hs6, hp1, hp2, hp3, hp4, hp5, hp6, hp7, hp8, hp9, hr0, hr1, hr2, hr3, hr4, hr5, hr6,
    hvr, Nat.cast_ofNat, Nat.cast_zero, Nat.cast_one, Nat.reduceAdd,
    bind, Except.bind, pure, Except.pure, Functor.map, Except.map]

theorem scan_cond (M j : ℕ) :
    (Int.land (M : ℤ) ((1 : ℤ) <<< Int.ofNat j) != 0) = M.testBit j := by
  have h1 : (1 : ℤ) <<< Int.ofNat j = ((2 ^ j : ℕ) : ℤ) := by
    show ((Nat.shiftLeft' false 1 j : ℕ) : ℤ) = ((2 ^ j : ℕ) : ℤ)
    rw [Nat.shiftLeft'_false, Nat.one_shiftLeft]
  rw [h1]
  have h2 : Int.land (M : ℤ) ((2 ^ j : ℕ) : ℤ) = ((M &&& 2 ^ j : ℕ) : ℤ) := rfl
  rw [h2, Nat.and_two_pow]
  cases hb : M.testBit j
  · simp [hb]
  · simp [hb]

theorem find?_range8 (p : ℕ → Bool) (i : ℕ) (hi : i < 8) (hp : p i = true)
    (hlow : ∀ j, j < i → p j = false) : (List.range 8).find? p = some i := by
  have hr : List.range 8 = [0, 1, 2, 3, 4, 5, 6, 7] := rfl
  rw [hr]
  interval_cases i
  · simp [List.find?, hp]
  · simp [List.find?, hp, hlow 0 (by norm_num)]
  · simp [List.find?, hp, hlow 0 (by norm_num), hlow 1 (by norm_num)]
  · simp [List.find?, hp, hlow 0 (by norm_num), hlow 1 (by norm_num),
      hlow 2 (by norm_num)]
  · simp [List.find?, hp, hlow 0 (by norm_num), hlow 1 (by norm_num),
      hlow 2 (by norm_num), hlow 3 (by norm_num)]
  · simp [List.find?, hp, hlow 0 (by norm_num), hlow 1 (by norm_num),
      hlow 2 (by norm_num), hlow 3 (by norm_num), hlow 4 (by norm_num)]
  · simp [List.find?, hp, hlow 0 (by norm_num), hlow 1 (by norm_num),
      hlow 2 (by norm_num), hlow 3 (by norm_num), hlow 4 (by norm_num),
      hlow 5 (by norm_num)]
  · simp [List.find?, hp, hlow 0 (by norm_num), hlow 1 (by norm_num),
      hlow 2 (by norm_num), hlow 3 (by norm_num), hlow 4 (by norm_num),
      hlow 5 (by norm_num), hlow 6 (by norm_num)]

theorem handle_ints_deliver (s : CPUState) (sp : ℤ) (r0 r1 r2 r3 r4 : ℤ) (im isv : ℕ)
    (i : ℕ) (vec z : ℤ)
    (hreg : s.reg = [r0, r1, r2, r3, r4, (im : ℤ), (isv : ℤ), sp])
    (hram : s.ram.length = 256)
    (hsp1 : 9 ≤ sp) (hsp2 : sp ≤ 244)
    (him : im < 256) (his : isv < 256)
    (hie : s.ie ≠ 0)
    (hbit : (im &&& isv).testBit i = true)
    (hlow : ∀ j, j < i → (im &&& isv).testBit j = false)
    (hvec : s.ram[248 + i]? = some vec)
    (hz : z = Int.land (isv : ℤ) (Int.lnot ((1 : ℤ) <<< (i : ℤ)))) :
    handle_ints s = .ok (CPUState.mk vec s.fl 0 s.halted s.inst_set_pc
      ((((((((((s.ram.set (sp - 1).toNat s.pc).set (sp - 2).toNat s.fl).set (sp - 3).toNat r0).set (sp - 4).toNat r1).set (sp - 5).toNat r2).set (sp - 6).toNat r3).set (sp - 7).toNat r4).set (sp - 8).toNat (im : ℤ)).set (sp - 9).toNat z)) [r0, r1, r2, r3, r4, (im : ℤ), z, sp - 9]) := by
  have h6n : Int.toNat 6 = 6 := rfl
  have h5n : Int.toNat 5 = 5 := rfl
  have hg5 : pyGet s.reg IM = some (im : ℤ) := by
    rw [hreg]
    norm_num [pyGet, pyIdx, IM, h5n]
  have hg6 : pyGet s.reg IS = some (isv : ℤ) := by
    rw [hreg]
    norm_num [pyGet, pyIdx, IS, h6n]
  have hcast : Int.land ((im : ℕ) : ℤ) ((isv : ℕ) : ℤ) = ((im &&& isv : ℕ) : ℤ) := rfl
  have hmask : im &&& isv < 256 := Nat.lt_of_le_of_lt Nat.and_le_left him
  have hge : 2 ^ i ≤ im &&& isv := Nat.testBit_implies_ge hbit
  have hi8 : i < 8 := by
    by_contra hcon
    push_neg at hcon
    have h28 : (256 : ℕ) ≤ 2 ^ i := by
      calc (256 : ℕ) = 2 ^ 8 := by norm_num
        _ ≤ 2 ^ i := Nat.pow_le_pow_right (by norm_num) hcon
    omega
  have hfind := find?_range8
    (fun j => Int.land ((im &&& isv : ℕ) : ℤ) ((1 : ℤ) <<< Int.ofNat j) != 0) i hi8
    (by show (Int.land ((im &&& isv : ℕ) : ℤ) ((1 : ℤ) <<< Int.ofNat i) != 0) = true
        rw [scan_cond]
        exact hbit)
    (fun j hj => by
      show (Int.land ((im &&& isv : ℕ) : ℤ) ((1 : ℤ) <<< Int.ofNat j) != 0) = false
      rw [scan_cond]
      exact hlow j hj)
  have hdel := deliverInt_ok s i sp r0 r1 r2 r3 r4 (im : ℤ) (isv : ℤ) z vec
    hreg hram hsp1 hsp2 hi8 hz hvec
  simp only [handle_ints, if_neg hie, hg5, hg6, hcast, liftO, hfind, hdel,
    bind, Except.bind, pure, Except.pure]

theorem handle_iret_ok (s : CPUState) (m : ℤ) (a b : ℤ)
    (g0 g1 g2 g3 g4 g5 g6 : ℤ) (v0 v1 v2 v3 v4 v5 v6 vfl vpc : ℤ)
    (hreg : s.reg = [g0, g1, g2, g3, g4, g5, g6, m])
    (hram : s.ram.length = 256)
    (hm0 : 0 ≤ m) (hm9 : m + 9 ≤ 256)
    (hq0 : s.ram[m.toNat]? = some v6)
    (hq1 : s.ram[(m + 1).toNat]? = some v5)
    (hq2 : s.ram[(m + 2).toNat]? = some v4)
    (hq3 : s.ram[(m + 3).toNat]? = some v3)
    (hq4 : s.ram[(m + 4).toNat]? = some v2)
    (hq5 : s.ram[(m + 5).toNat]? = some v1)
    (hq6 : s.ram[(m + 6).toNat]? = some v0)
    (hq7 : s.ram[(m + 7).toNat]? = some vfl)
    (hq8 : s.ram[(m + 8).toNat]? = some vpc) :
    handle_iret s a b = .ok (CPUState.mk vpc vfl 1 s.halted s.inst_set_pc s.ram
      [v0, v1, v2, v3, v4, v5, v6, m + 9]) := by
  have t6 : Int.toNat 6 = 6 := rfl
  have t5 : Int.toNat 5 = 5 := rfl
  have t4 : Int.toNat 4 = 4 := rfl
  have t3 : Int.toNat 3 = 3 := rfl
  have t2 : Int.toNat 2 = 2 := rfl
  have t1 : Int.toNat 1 = 1 := rfl
  have t0 : Int.toNat 0 = 0 := rfl
  have hp0 := phandle_val_ok s m v6 g0 g1 g2 g3 g4 g5 g6 hreg hm0 (by omega) hq0
  have hp1 := phandle_val_ok
    (CPUState.mk s.pc s.fl s.ie s.halted s.inst_set_pc s.ram
      [g0, g1, g2, g3, g4, g5, v6, m + 1]) (m + 1) v5
    g0 g1 g2 g3 g4 g5 v6 rfl (by omega) (by rw [hram]; omega) hq1
  rw [show (m + 1) + 1 = m + 2 by omega] at hp1
  have hp2 := phandle_val_ok
    (CPUState.mk s.pc s.fl s.ie s.halted s.inst_set_pc s.ram
      [g0, g1, g2, g3, g4, v5, v6, m + 2]) (m + 2) v4
    g0 g1 g2 g3 g4 v5 v6 rfl (by omega) (by rw [hram]; omega) hq2
  rw [show (m + 2) + 1 = m + 3 by omega] at hp2
  have hp3 := phandle_val_ok
    (CPUState.mk s.pc s.fl s.ie s.halted s.inst_set_pc s.ram
      [g0, g1, g2, g3, v4, v5, v6, m + 3]) (m + 3) v3
    g0 g1 g2 g3 v4 v5 v6 rfl (by omega) (by rw [hram]; omega) hq3
  rw [show (m + 3) + 1 = m + 4 by omega] at hp3
  have hp4 := phandle_val_ok
    (CPUState.mk s.pc s.fl s.ie s.halted s.inst_set_pc s.ram
      [g0, g1, g2, v3, v4, v5, v6, m + 4]) (m + 4) v2
    g0 g1 g2 v3 v4 v5 v6 rfl (by omega) (by rw [hram]; omega) hq4
  rw [show (m + 4) + 1 = m + 5 by omega] at hp4
  have hp5 := phandle_val_ok
    (CPUState.mk s.pc s.fl s.ie s.halted s.inst_set_pc s.ram
      [g0, g1, v2, v3, v4, v5, v6, m + 5]) (m + 5) v1
    g0 g1 v2 v3 v4 v5 v6 rfl (by omega) (by rw [hram]; omega) hq5
  rw [show (m + 5) + 1 = m + 6 by omega] at hp5
  have hp6 := phandle_val_ok
    (CPUState.mk s.pc s.fl s.ie s.halted s.inst_set_pc s.ram
      [g0, v1, v2, v3, v4, v5, v6, m + 6]) (m + 6) v0
    g0 v1 v2 v3 v4 v5 v6 rfl (by omega) (by rw [hram]; omega) hq6
  rw [show (m + 6) + 1 = m + 7 by omega] at hp6
  have hp7 := phandle_val_ok
    (CPUState.mk s.pc s.fl s.ie s.halted s.inst_set_pc s.ram
      [v0, v1, v2, v3, v4, v5, v6, m + 7]) (m + 7) vfl
    v0 v1 v2 v3 v4 v5 v6 rfl (by omega) (by rw [hram]; omega) hq7
  rw [show (m + 7) + 1 = m + 8 by omega] at hp7
  have hp8 := phandle_val_ok
    (CPUState.mk s.pc vfl s.ie s.halted s.inst_set_pc s.ram
      [v0, v1, v2, v3, v4, v5, v6, m + 8]) (m + 8) vpc
    v0 v1 v2 v3 v4 v5 v6 rfl (by omega) (by rw [hram]; omega) hq8
  rw [show (m + 8) + 1 = m + 9 by omega] at hp8
  have hs0 : pySet [g0, g1, g2, g3, g4, g5, g6, m + 1] (6 : ℤ) v6 = some [g0, g1, g2, g3, g4, g5, v6, m + 1] := by
    norm_num [pySet, pyIdx, t6]
  have hs1 : pySet [g0, g1, g2, g3, g4, g5, v6, m + 2] (5 : ℤ) v5 = some [g0, g1, g2, g3, g4, v5, v6, m + 2] := by
    norm_num [pySet, pyIdx, t5]
  have hs2 : pySet [g0, g1, g2, g3, g4, v5, v6, m + 3] (4 : ℤ) v4 = some [g0, g1, g2, g3, v4, v5, v6, m + 3] := by
    norm_num [pySet, pyIdx, t4]
  have hs3 : pySet [g0, g1, g2, g3, v4, v5, v6, m + 4] (3 : ℤ) v3 = some [g0, g1, g2, v3, v4, v5, v6, m + 4] := by
    norm_num [pySet, pyIdx, t3]
  have hs4 : pySet [g0, g1, g2, v3, v4, v5, v6, m + 5] (2 : ℤ) v2 = some [g0, g1, v2, v3, v4, v5, v6, m + 5] := by
    norm_num [pySet, pyIdx, t2]
  have hs5 : pySet [g0, g1, v2, v3, v4, v5, v6, m + 6] (1 : ℤ) v1 = some [g0, v1, v2, v3, v4, v5, v6, m + 6] := by
    norm_num [pySet, pyIdx, t1]
  have hs6 : pySet [g0, v1, v2, v3, v4, v5, v6, m + 7] (0 : ℤ) v0 = some [v0, v1, v2, v3, v4, v5, v6, m + 7] := by
    norm_num [pySet, pyIdx, t0]
  simp only [handle_iret, popRegsDown, liftO, hp0, hp1, hp2, hp3, hp4, hp5, hp6, hp7, hp8, hs0, hs1, hs2, hs3, hs4, hs5, hs6,
    Nat.cast_ofNat, Nat.cast_zero, Nat.cast_one, Nat.reduceAdd, Nat.reduceSub,
    bind, Except.bind, pure, Except.pure, Functor.map, Except.map]

/-! ### The claims -/

/-- Claim C1, status code_bug.  The claim (and the spec) require every ALU
result to be reduced modulo 256, with `ADD` on `reg_a = 255`, `reg_b = 1`
yielding 0.  The source (`CPU.alu`, lines 147-158) performs unbounded
Python integer arithmetic with no masking: `ADD` on 255 and 1 leaves 256
in the destination register, not 0, contradicting the spec sentence that
calls 8-bit wraparound a required semantic. -/
theorem alu_add_255_1_no_wraparound :
    (handle_add c1State 0 1).map (fun t => pyGet t.reg 0) = .ok (some 256) ∧
      (handle_add c1State 0 1).map (fun t => pyGet t.reg 0) ≠ .ok (some 0) := by
  constructor
  · decide
  · decide

/-- Claim C2, status confirmed.  For every prior value of the flags
register and every pair of (unsigned, hence nonnegative) register values,
CMP leaves the low three bits of FL holding exactly one of the comparison
bits: LT when the first value is smaller, GT when it is larger, EQ when
they are equal.  The mask `0x11111000` of line 160 is a hex literal (the
source plainly meant the binary literal `0b11111000`), but its low twelve
bits are zero, so it does clear all three comparison bits, and the claim
holds as stated. -/
theorem cmp_sets_exactly_one_flag (s : CPUState) (reg_a reg_b va vb : ℤ)
    (ha : pyGet s.reg reg_a = some va) (hb : pyGet s.reg reg_b = some vb)
    (hva : 0 ≤ va) (hvb : 0 ≤ vb) :
    (handle_cmp s reg_a reg_b).map (fun t => t.fl % 8) =
      .ok (if va < vb then FL_LT else if vb < va then FL_GT else FL_EQ) := by
  unfold handle_cmp alu
  rw [if_neg (by decide), if_neg (by decide), if_neg (by decide), if_neg (by decide),
    if_neg (by decide), if_neg (by decide), if_pos (by decide)]
  simp only [liftO, Except.pure, Except.bind, bind, pure, Except.map, ha, hb]
  rcases lt_trichotomy va vb with hlt | heq | hgt
  · rw [if_pos hlt, if_pos hlt]
    have h4 : (FL_LT : ℤ) = ((4 : ℕ) : ℤ) := by norm_num [FL_LT]
    rw [h4]
    exact congrArg Except.ok (cmp_fl_mod8 s.fl 4 (by norm_num))
  · rw [if_neg (by omega), if_neg (by omega), if_neg (by omega), if_neg (by omega)]
    have h1 : (FL_EQ : ℤ) = ((1 : ℕ) : ℤ) := by norm_num [FL_EQ]
    rw [h1]
    exact congrArg Except.ok (cmp_fl_mod8 s.fl 1 (by norm_num))
  · rw [if_neg (by omega), if_pos (by omega), if_neg (by omega), if_pos (by omega)]
    have h2 : (FL_GT : ℤ) = ((2 : ℕ) : ℤ) := by norm_num [FL_GT]
    rw [h2]
    exact congrArg Except.ok (cmp_fl_mod8 s.fl 2 (by norm_num))

/-- Witness for C2 at the example of the claim: CMP on values 3 and 5
leaves LT set and GT/EQ clear even though all three bits were stale. -/
theorem cmp_sets_exactly_one_flag_witness :
    (handle_cmp c2State 0 1).map (fun t => t.fl % 8) = .ok FL_LT := by
  have h := cmp_sets_exactly_one_flag c2State 0 1 3 5 (by decide) (by decide)
    (by decide) (by decide)
  simpa using h

/-- Claim C3, status confirmed.  With interrupts enabled and a nonzero
`IM AND IS`, one delivery check delivers exactly the lowest-numbered pending
interrupt `i`: it disables interrupts, clears bit `i` of IS leaving every
other IS bit unchanged, pushes PC, then FL, then registers 0 through 6 in
ascending order onto the stack, and sets PC to the byte stored at the vector
address `0xf8 + i`; no further interrupt is delivered in that iteration even
if other bits remain pending (the resulting state is pinned completely).
With interrupts disabled, or with `IM AND IS` zero, the check changes
nothing.  Stated for well-formed states whose stack pointer lies in the
valid stack range and whose IM and IS hold byte values. -/
theorem interrupt_delivery (s : CPUState) (sp : ℤ) (r0 r1 r2 r3 r4 : ℤ) (im isv : ℕ)
    (hreg : s.reg = [r0, r1, r2, r3, r4, (im : ℤ), (isv : ℤ), sp])
    (hram : s.ram.length = 256)
    (hsp1 : 9 ≤ sp) (hsp2 : sp ≤ 244)
    (him : im < 256) (his : isv < 256) :
    (s.ie = 0 → handle_ints s = .ok s) ∧
      ((im &&& isv) = 0 → handle_ints s = .ok s) ∧
      (∀ i : ℕ, ∀ vec z : ℤ, s.ie ≠ 0 →
        (im &&& isv).testBit i = true →
        (∀ j, j < i → (im &&& isv).testBit j = false) →
        s.ram[248 + i]? = some vec →
        z = Int.land (isv : ℤ) (Int.lnot ((1 : ℤ) <<< (i : ℤ))) →
        handle_ints s = .ok (CPUState.mk vec s.fl 0 s.halted s.inst_set_pc
          ((((((((((s.ram.set (sp - 1).toNat s.pc).set (sp - 2).toNat s.fl).set (sp - 3).toNat r0).set (sp - 4).toNat r1).set (sp - 5).toNat r2).set (sp - 6).toNat r3).set (sp - 7).toNat r4).set (sp - 8).toNat (im : ℤ)).set (sp - 9).toNat z)) [r0, r1, r2, r3, r4, (im : ℤ), z, sp - 9]) ∧
          Int.testBit z i = false ∧
          (∀ j, j ≠ i → Int.testBit z j = Int.testBit (isv : ℤ) j)) := by
  refine ⟨?_, ?_, ?_⟩
  · intro hie
    simp [handle_ints, hie, pure, Except.pure]
  · intro h0
    by_cases hie : s.ie = 0
    · simp [handle_ints, hie, pure, Except.pure]
    · have h6n : Int.toNat 6 = 6 := rfl
      have h5n : Int.toNat 5 = 5 := rfl
      have hg5 : pyGet s.reg IM = some (im : ℤ) := by
        rw [hreg]
        norm_num [pyGet, pyIdx, IM, h5n]
      have hg6 : pyGet s.reg IS = some (isv : ℤ) := by
        rw [hreg]
        norm_num [pyGet, pyIdx, IS, h6n]
      have hcast : Int.land ((im : ℕ) : ℤ) ((isv : ℕ) : ℤ) = ((im &&& isv : ℕ) : ℤ) := rfl
      have hfind : (List.range 8).find?
          (fun j => Int.land ((im &&& isv : ℕ) : ℤ) ((1 : ℤ) <<< Int.ofNat j) != 0) = none := by
        rw [List.find?_eq_none]
        intro x _
        rw [scan_cond, h0]
        simp
      simp only [handle_ints, if_neg hie, hg5, hg6, hcast, liftO, hfind,
        bind, Except.bind, pure, Except.pure]
  · intro i vec z hie hbit hlow hvec hz
    have h1 : (1 : ℤ) <<< (i : ℤ) = ((2 ^ i : ℕ) : ℤ) := by
      show ((Nat.shiftLeft' false 1 i : ℕ) : ℤ) = ((2 ^ i : ℕ) : ℤ)
      rw [Nat.shiftLeft'_false, Nat.one_shiftLeft]
    have hzval : z = ((Nat.ldiff isv (2 ^ i) : ℕ) : ℤ) := by
      rw [hz, h1]
      rfl
    refine ⟨handle_ints_deliver s sp r0 r1 r2 r3 r4 im isv i vec z hreg hram hsp1 hsp2
      him his hie hbit hlow hvec hz, ?_, ?_⟩
    · rw [hzval]
      show Nat.testBit (Nat.ldiff isv (2 ^ i)) i = false
      rw [Nat.testBit_ldiff, Nat.testBit_two_pow_self]
      simp
    · intro j hj
      rw [hzval]
      show Nat.testBit (Nat.ldiff isv (2 ^ i)) j = Nat.testBit isv j
      rw [Nat.testBit_ldiff, Nat.testBit_two_pow_of_ne (fun hc => hj hc.symm)]
      simp

set_option maxRecDepth 10000 in
/-- Witness for claim C3 at a concrete state with IM = IS = 5: bit 0 wins,
IS becomes 4, the nine saved bytes land at 243 down to 235, and PC jumps to
the vector byte 111. -/
theorem interrupt_delivery_witness :
    handle_ints w3State = .ok (CPUState.mk 111 9 0 false false (((((((((((List.replicate 256 0).set 248 111).set 243 100).set 242 9).set 241 10).set 240 20).set 239 30).set 238 40).set 237 50).set 236 5).set 235 4) [10, 20, 30, 40, 50, 5, 4, 235]) := by
  have h := (interrupt_delivery w3State 244 10 20 30 40 50 5 5 rfl (by decide)
    (by decide) (by decide) (by decide) (by decide)).2.2
    0 111 4 (by decide) (by decide) (fun j hj => absurd hj (Nat.not_lt_zero j))
    (by decide)
    (by show (4 : ℤ) = ((Nat.ldiff 5 (2 ^ 0) : ℕ) : ℤ)
        rw [ldiff_eq_sub]
        decide)
  rw [h.1]
  decide

set_option maxRecDepth 10000 in
/-- Counterexample to claim C4 as stated: the delivery clears the pending IS
bit before saving the registers, so IRET restores register 6 (IS) to the
cleared value, not to its pre-interrupt value: delivering from IS = 1 and
returning leaves IS = 0 while the pre-interrupt value was 1. -/
theorem iret_IS_bit_not_restored :
    handle_ints c4State = .ok c4B ∧
      handle_iret (CPUState.mk 3 77 0 false false c4Ram [9, 9, 9, 9, 9, 9, 9, 235]) 0 0 =
        .ok (CPUState.mk 100 9 1 false false c4Ram [10, 20, 30, 40, 50, 1, 0, 244]) ∧
      pyGet c4State.reg 6 = some 1 ∧
      pyGet (CPUState.mk 100 9 1 false false c4Ram [10, 20, 30, 40, 50, 1, 0, 244]).reg 6 =
        some 0 := by
  refine ⟨?_, ?_, by decide, by decide⟩
  · have hh := handle_ints_deliver c4State 244 10 20 30 40 50 1 1 0 111 0 rfl (by decide)
      (by decide) (by decide) (by decide) (by decide) (by decide) (by decide)
      (fun j hj => absurd hj (Nat.not_lt_zero j)) (by decide)
      (by show (0 : ℤ) = ((Nat.ldiff 1 (2 ^ 0) : ℕ) : ℤ)
          rw [ldiff_eq_sub]
          decide)
    rw [hh]
    decide
  · decide

/-- Claim C4, amended (status corrected).  After an interrupt delivery and an
arbitrary handler mutation of registers 0-6, FL and PC, executing IRET
restores registers 0-5, FL and PC to their exact pre-interrupt values,
restores register 6 (IS) to its saved value, which is the pre-interrupt IS
with the delivered bit cleared, re-enables interrupts, and register 7 (SP)
returns to its pre-interrupt value by the pop arithmetic, the pops running
in the exact reverse order of the save (register 6 first down to register 0,
then FL, then PC). -/
theorem iret_restores_saved_context (s : CPUState) (sp : ℤ) (r0 r1 r2 r3 r4 : ℤ)
    (im isv : ℕ) (i : ℕ) (vec z : ℤ) (sB s2 : CPUState)
    (g0 g1 g2 g3 g4 g5 g6 flh pch a b : ℤ)
    (hreg : s.reg = [r0, r1, r2, r3, r4, (im : ℤ), (isv : ℤ), sp])
    (hram : s.ram.length = 256)
    (hsp1 : 9 ≤ sp) (hsp2 : sp ≤ 244)
    (him : im < 256) (his : isv < 256)
    (hie : s.ie ≠ 0)
    (hbit : (im &&& isv).testBit i = true)
    (hlow : ∀ j, j < i → (im &&& isv).testBit j = false)
    (hvec : s.ram[248 + i]? = some vec)
    (hz : z = Int.land (isv : ℤ) (Int.lnot ((1 : ℤ) <<< (i : ℤ))))
    (hdel : handle_ints s = .ok sB)
    (hmut : s2 = { sB with reg := [g0, g1, g2, g3, g4, g5, g6, sp - 9], fl := flh, pc := pch }) :
    handle_iret s2 a b = .ok (CPUState.mk s.pc s.fl 1 s.halted s.inst_set_pc sB.ram
      [r0, r1, r2, r3, r4, (im : ℤ), z, sp]) := by
  have hB := handle_ints_deliver s sp r0 r1 r2 r3 r4 im isv i vec z hreg hram hsp1 hsp2
    him his hie hbit hlow hvec hz
  have hsB := Except.ok.inj (hdel.symm.trans hB)
  subst hsB
  subst hmut
  have hir := handle_iret_ok (CPUState.mk pch flh 0 s.halted s.inst_set_pc
    ((((((((((s.ram.set (sp - 1).toNat s.pc).set (sp - 2).toNat s.fl).set (sp - 3).toNat r0).set (sp - 4).toNat r1).set (sp - 5).toNat r2).set (sp - 6).toNat r3).set (sp - 7).toNat r4).set (sp - 8).toNat (im : ℤ)).set (sp - 9).toNat z)) [g0, g1, g2, g3, g4, g5, g6, sp - 9]) (sp - 9) a b
    g0 g1 g2 g3 g4 g5 g6 r0 r1 r2 r3 r4 (im : ℤ) z s.fl s.pc rfl
    (by show ((((((((((s.ram.set (sp - 1).toNat s.pc).set (sp - 2).toNat s.fl).set (sp - 3).toNat r0).set (sp - 4).toNat r1).set (sp - 5).toNat r2).set (sp - 6).toNat r3).set (sp - 7).toNat r4).set (sp - 8).toNat (im : ℤ)).set (sp - 9).toNat z)).length = 256
        simp only [List.length_set]
        exact hram)
    (by omega) (by omega)
    (by have e : sp - 9 = sp - 9 := rfl
        clear e
        rw [List.getElem?_set_self (by simp only [List.length_set, hram]; omega)])
    (by have e : sp - 9 + 1 = sp - 8 := by omega
        rw [e]
        rw [List.getElem?_set_ne (by omega)]
        rw [List.getElem?_set_self (by simp only [List.length_set, hram]; omega)])
    (by have e : sp - 9 + 2 = sp - 7 := by omega
        rw [e]
        rw [List.getElem?_set_ne (by omega)]
        rw [List.getElem?_set_ne (by omega)]
        rw [List.getElem?_set_self (by simp only [List.length_set, hram]; omega)])
    (by have e : sp - 9 + 3 = sp - 6 := by omega
        rw [e]
        rw [List.getElem?_set_ne (by omega)]
        rw [List.getElem?_set_ne (by omega)]
        rw [List.getElem?_set_ne (by omega)]
        rw [List.getElem?_set_self (by simp only [List.length_set, hram]; omega)])
    (by have e : sp - 9 + 4 = sp - 5 := by omega
        rw [e]
        rw [List.getElem?_set_ne (by omega)]
        rw [List.getElem?_set_ne (by omega)]
        rw [List.getElem?_set_ne (by omega)]
        rw [List.getElem?_set_ne (by omega)]
        rw [List.getElem?_set_self (by simp only [List.length_set, hram]; omega)])
    (by have e : sp - 9 + 5 = sp - 4 := by omega
        rw [e]
        rw [List.getElem?_set_ne (by omega)]
        rw [List.getElem?_set_ne (by omega)]
        rw [List.getElem?_set_ne (by omega)]
        rw [List.getElem?_set_ne (by omega)]
        rw [List.getElem?_set_ne (by omega)]
        rw [List.getElem?_set_self (by simp only [List.length_set, hram]; omega)])
    (by have e : sp - 9 + 6 = sp - 3 := by omega
        rw [e]
        rw [List.getElem?_set_ne (by omega)]
        rw [List.getElem?_set_ne (by omega)]
        rw [List.getElem?_set_ne (by omega)]
        rw [List.getElem?_set_ne (by omega)]
        rw [List.getElem?_set_ne (by omega)]
        rw [List.getElem?_set_ne (by omega)]
        rw [List.getElem?_set_self (by simp only [List.length_set, hram]; omega)])
    (by have e : sp - 9 + 7 = sp - 2 := by omega
        rw [e]
        rw [List.getElem?_set_ne (by omega)]
        rw [List.getElem?_set_ne (by omega)]
        rw [List.getElem?_set_ne (by omega)]
        rw [List.getElem?_set_ne (by omega)]
        rw [List.getElem?_set_ne (by omega)]
        rw [List.getElem?_set_ne (by omega)]
        rw [List.getElem?_set_ne (by omega)]
        rw [List.getElem?_set_self (by simp only [List.length_set, hram]; omega)])
    (by have e : sp - 9 + 8 = sp - 1 := by omega
        rw [e]
        rw [List.getElem?_set_ne (by omega)]
        rw [List.getElem?_set_ne (by omega)]
        rw [List.getElem?_set_ne (by omega)]
        rw [List.getElem?_set_ne (by omega)]
        rw [List.getElem?_set_ne (by omega)]
        rw [List.getElem?_set_ne (by omega)]
        rw [List.getElem?_set_ne (by omega)]
        rw [List.getElem?_set_ne (by omega)]
        rw [List.getElem?_set_self (by simp only [List.length_set, hram]; omega)])
  rw [show sp - 9 + 9 = sp by omega] at hir
  exact hir

set_option maxRecDepth 10000 in
/-- Witness for the amended claim C4: a delivery from `c4State`, a handler
that overwrites all registers with 9 and FL/PC with 77/3, and an IRET that
brings back registers `[10, 20, 30, 40, 50, 1, 0]`, FL 9, PC 100 and SP 244
(register 6 holds the acknowledged IS value 0, not the pre-interrupt 1). -/
theorem iret_restores_saved_context_witness :
    handle_iret (CPUState.mk 3 77 0 false false c4Ram [9, 9, 9, 9, 9, 9, 9, 235]) 0 0 =
      .ok (CPUState.mk 100 9 1 false false c4Ram [10, 20, 30, 40, 50, 1, 0, 244]) := by
  have hdel : handle_ints c4State = .ok c4B := by
    have hh := handle_ints_deliver c4State 244 10 20 30 40 50 1 1 0 111 0 rfl (by decide)
      (by decide) (by decide) (by decide) (by decide) (by decide) (by decide)
      (fun j hj => absurd hj (Nat.not_lt_zero j)) (by decide)
      (by show (0 : ℤ) = ((Nat.ldiff 1 (2 ^ 0) : ℕ) : ℤ)
          rw [ldiff_eq_sub]
          decide)
    rw [hh]
    decide
  have h := iret_restores_saved_context c4State 244 10 20 30 40 50 1 1 0 111 0 c4B
    (CPUState.mk 3 77 0 false false c4Ram [9, 9, 9, 9, 9, 9, 9, 235])
    9 9 9 9 9 9 9 77 3 0 0 rfl (by decide) (by decide) (by decide) (by decide) (by decide)
    (by decide) (by decide) (fun j hj => absurd hj (Nat.not_lt_zero j)) (by decide)
    (by show (0 : ℤ) = ((Nat.ldiff 1 (2 ^ 0) : ℕ) : ℤ)
        rw [ldiff_eq_sub]
        decide)
    hdel (by decide)
  rw [h]
  decide

/-- Claim C5, status confirmed.  Push decrements SP by one and then writes
the value at the new SP address; pop reads the value at SP and then
increments SP by one; and a PUSH immediately followed by a POP into a
general (non-SP) register leaves the target register holding the value the
pushed register held before the push, with SP back at its pre-push value. -/
theorem push_pop_round_trip (s : CPUState) (sp v w a a' b b' : ℤ)
    (r0 r1 r2 r3 r4 r5 r6 : ℤ)
    (hreg : s.reg = [r0, r1, r2, r3, r4, r5, r6, sp])
    (hram : s.ram.length = 256)
    (hsp1 : 1 ≤ sp) (hsp2 : sp ≤ 244)
    (hva : pyGet s.reg a = some v)
    (hw : pyGet s.ram sp = some w)
    (ha0 : 0 ≤ a') (ha7 : a' < 7) :
    (push_val s v).map (fun t => (pyGet t.reg 7, pyGet t.ram (sp - 1))) =
        .ok (some (sp - 1), some v) ∧
      (phandle_val s).map (fun r => (r.1, pyGet r.2.reg 7)) = .ok (w, some (sp + 1)) ∧
      ((handle_push s a b).bind (fun s1 => handle_pop s1 a' b')).map
          (fun s2 => (pyGet s2.reg a', pyGet s2.reg 7)) = .ok (some v, some sp) := by
  have h7 : Int.toNat 7 = 7 := rfl
  have hpush := push_val_ok s v sp r0 r1 r2 r3 r4 r5 r6 hreg hsp1 (by omega)
  refine ⟨?_, ?_, ?_⟩
  · rw [hpush]
    have hg7 : pyGet ([r0, r1, r2, r3, r4, r5, r6, sp - 1]) 7 = some (sp - 1) := by
      norm_num [pyGet, pyIdx, h7]
    have hgr : pyGet (s.ram.set (sp - 1).toNat v) (sp - 1) = some v := by
      rw [pyGet_nonneg (by omega) (by rw [List.length_set, hram]; omega)]
      rw [List.getElem?_set_self (by rw [hram]; omega)]
    simp only [Except.map, hg7, hgr]
  · have hv : s.ram[sp.toNat]? = some w := by
      rw [pyGet_nonneg (by omega) (by omega : sp < (s.ram.length : ℤ))] at hw
      exact hw
    rw [phandle_val_ok s sp w r0 r1 r2 r3 r4 r5 r6 hreg (by omega) (by omega) hv]
    have hg7 : pyGet ([r0, r1, r2, r3, r4, r5, r6, sp + 1]) 7 = some (sp + 1) := by
      norm_num [pyGet, pyIdx, h7]
    simp only [Except.map, hg7]
  · have hpop : phandle_val { s with reg := [r0, r1, r2, r3, r4, r5, r6, sp - 1], ram := s.ram.set (sp - 1).toNat v } = .ok (v, { s with reg := [r0, r1, r2, r3, r4, r5, r6, sp - 1 + 1], ram := s.ram.set (sp - 1).toNat v }) := by
      refine phandle_val_ok _ (sp - 1) v r0 r1 r2 r3 r4 r5 r6 rfl (by omega) ?_ ?_
      · rw [List.length_set, hram]
        omega
      · rw [List.getElem?_set_self (by rw [hram]; omega)]
    have hsp11 : sp - 1 + 1 = sp := by omega
    rw [hsp11] at hpop
    have hsetA : pySet ([r0, r1, r2, r3, r4, r5, r6, sp]) a' v =
        some (([r0, r1, r2, r3, r4, r5, r6, sp]).set a'.toNat v) := by
      refine pySet_nonneg v ha0 ?_
      norm_num
      omega
    have hga' : pyGet (([r0, r1, r2, r3, r4, r5, r6, sp]).set a'.toNat v) a' = some v := by
      rw [pyGet_nonneg (by omega) (by rw [List.length_set]; norm_num; omega)]
      rw [List.getElem?_set_self (by norm_num; omega)]
    have hg7' : pyGet (([r0, r1, r2, r3, r4, r5, r6, sp]).set a'.toNat v) 7 = some sp := by
      rw [pyGet_nonneg (by omega) (by rw [List.length_set]; norm_num), h7]
      rw [List.getElem?_set_ne (by omega)]
      rfl
    simp only [handle_push, handle_pop, hva, liftO, hpush, hpop, hsetA, hga', hg7',
      bind, Except.bind, pure, Except.pure, Except.map]

set_option maxRecDepth 10000 in
/-- Witness for claim C5: pushing register 0 (holding 42) from SP = 244 and
popping into register 1 yields register 1 = 42 and SP = 244 again. -/
theorem push_pop_round_trip_witness :
    (push_val c5State 42).map (fun t => (pyGet t.reg 7, pyGet t.ram 243)) =
        .ok (some 243, some 42) ∧
      (phandle_val c5State).map (fun r => (r.1, pyGet r.2.reg 7)) = .ok (0, some 245) ∧
      ((handle_push c5State 0 0).bind (fun s1 => handle_pop s1 1 0)).map
          (fun s2 => (pyGet s2.reg 1, pyGet s2.reg 7)) = .ok (some 42, some 244) := by
  have h := push_pop_round_trip c5State 244 42 0 0 1 0 0 42 0 0 0 0 0 0 rfl (by decide)
    (by decide) (by decide) (by decide) (by decide) (by decide) (by decide)
  have e : (244 : ℤ) - 1 = 243 := by norm_num
  have e2 : (244 : ℤ) + 1 = 245 := by norm_num
  rw [e, e2] at h
  exact h

set_option maxRecDepth 10000 in
/-- Claim C6, status confirmed.  A fetched opcode byte with no entry in the
opcode-to-handler mapping makes execution fail with the fatal
invalid-instruction error carrying both the offending opcode and the PC it
was fetched at; and a memory image whose entry byte is `0xFF` fails on the
very first iteration reporting opcode 255 at address 0, with no further
instruction executed no matter how much fuel remains or what the timer
oracle does. -/
theorem invalid_opcode_fatal :
    (∀ (s : CPUState) (ir oa ob : ℤ),
      pyGet s.ram s.pc = some ir →
      pyGet s.ram (s.pc + 1) = some oa →
      pyGet s.ram (s.pc + 2) = some ob →
      branchtable ir = none →
      execInstr s = .error (.invalidInstruction ir s.pc)) ∧
    (∀ (fuel : ℕ) (oracle : ℕ → Bool),
      runFuel oracle (fuel + 1) ffState = .error (.invalidInstruction 255 0)) := by
  constructor
  · intro s ir oa ob hir hoa hob hbt
    simp only [execInstr, ram_read, liftO, hir, hoa, hob, hbt,
      bind, Except.bind, pure, Except.pure]
  · intro fuel oracle
    have h0 : ffState.halted = false := rfl
    have hstep : ∀ g : ℕ → Bool, runFuel g (fuel + 1) ffState = (do
        let s1 ← check_for_timer_int (g fuel) ffState
        let s2 ← handle_ints s1
        let s3 ← execInstr s2
        runFuel g fuel s3) := fun g => rfl
    cases h : oracle fuel
    · have h1 : check_for_timer_int false ffState = .ok ffState := by decide
      have h2 : handle_ints ffState = .ok ffState := by decide
      have h3 : execInstr ffState = .error (.invalidInstruction 255 0) := by decide
      rw [hstep oracle, h, h1, exceptBind_ok, h2, exceptBind_ok, h3, exceptBind_error]
    · have h1 : check_for_timer_int true ffState = .ok (CPUState.mk 0 0 1 false false
        ((List.replicate 256 0).set 0 255) [0, 0, 0, 0, 0, 0, 1, 244]) := by decide
      have h2 : handle_ints (CPUState.mk 0 0 1 false false
          ((List.replicate 256 0).set 0 255) [0, 0, 0, 0, 0, 0, 1, 244]) = .ok (CPUState.mk 0 0 1
          false false ((List.replicate 256 0).set 0 255) [0, 0, 0, 0, 0, 0, 1, 244]) := by decide
      have h3 : execInstr (CPUState.mk 0 0 1 false false
          ((List.replicate 256 0).set 0 255) [0, 0, 0, 0, 0, 0, 1, 244]) =
          .error (.invalidInstruction 255 0) := by decide
      rw [hstep oracle, h, h1, exceptBind_ok, h2, exceptBind_ok, h3, exceptBind_error]

set_option maxRecDepth 10000 in
/-- Witness for claim C6 at the reset state loaded with the byte `0xFF`. -/
theorem invalid_opcode_fatal_witness :
    execInstr ffState = .error (.invalidInstruction 255 0) ∧
      runFuel (fun _ => true) 4 ffState = .error (.invalidInstruction 255 0) := by
  constructor
  · exact invalid_opcode_fatal.1 ffState 255 0 0 (by decide) (by decide) (by decide) rfl
  · exact invalid_opcode_fatal.2 3 (fun _ => true)

set_option maxRecDepth 10000 in
/-- Counterexample to claim C7 as stated: the address -1 lies outside
`[0, 256)`, yet reading it is not rejected: it silently wraps to address 255
and succeeds, as does the corresponding write. -/
theorem negative_address_wraps_silently :
    ram_read c7State (-1) = .ok 7 ∧
      (ram_write c7State 9 (-1)).map (fun t => pyGet t.ram 255) = .ok (some 9) ∧
      ¬ (0 ≤ (-1 : ℤ)) := by
  refine ⟨by decide, by decide, by decide⟩

/-- Claim C7, amended (status corrected).  Memory accesses follow Python
list-index semantics: addresses in `[0, 256)` are total, with no side effect
beyond the stored value; addresses in `[-256, 0)` silently wrap by adding
256 instead of being checked and rejected; and only addresses outside
`[-256, 256)` fail, with an uncaught IndexError rather than an explicit
check. -/
theorem memory_access_python_semantics (s : CPUState) (mar v x : ℤ)
    (hram : s.ram.length = 256) :
    (0 ≤ mar → mar < 256 → s.ram[mar.toNat]? = some x →
      ram_read s mar = .ok x ∧
        ram_write s v mar = .ok { s with ram := s.ram.set mar.toNat v }) ∧
      (-256 ≤ mar → mar < 0 → s.ram[(mar + 256).toNat]? = some x →
        ram_read s mar = .ok x ∧
          ram_write s v mar = .ok { s with ram := s.ram.set (mar + 256).toNat v }) ∧
      ((mar < -256 ∨ 256 ≤ mar) →
        ram_read s mar = .error .indexError ∧ ram_write s v mar = .error .indexError) := by
  refine ⟨?_, ?_, ?_⟩
  · intro h0 h1 hx
    constructor
    · rw [ram_read, pyGet_nonneg h0 (by omega), hx]
      rfl
    · rw [ram_write]
      rw [pySet_nonneg v h0 (by omega)]
      rfl
  · intro h0 h1 hx
    have e : mar + (s.ram.length : ℤ) = mar + 256 := by rw [hram]; norm_num
    constructor
    · rw [ram_read, pyGet_neg (by omega) h1, e, hx]
      rfl
    · rw [ram_write, pySet_neg v (by omega) h1, e]
      rfl
  · intro h
    have hidx : pyIdx s.ram.length mar = none := by
      apply pyIdx_of_of_bounds
      omega
    constructor
    · rw [ram_read]
      simp only [pyGet, hidx]
      rfl
    · rw [ram_write]
      simp only [pySet, hidx]
      rfl

set_option maxRecDepth 10000 in
/-- Witness for the amended claim C7: reading address -1 silently returns
the byte at 255, writing it stores at 255, and address 300 raises. -/
theorem memory_access_python_semantics_witness :
    ram_read c7State (-1) = .ok 7 ∧
      ram_write c7State 9 (-1) = .ok { c7State with ram := c7State.ram.set 255 9 } ∧
      ram_read c7State 300 = .error .indexError := by
  have h2 := (memory_access_python_semantics c7State (-1) 9 7 (by decide)).2.1
    (by decide) (by decide) (by decide)
  have h3 := ((memory_access_python_semantics c7State 300 9 7 (by decide)).2.2
    (Or.inr (by decide))).1
  refine ⟨?_, ?_, h3⟩
  · exact h2.1
  · have := h2.2
    simpa using this

/-- Counterexample to claim C8 as stated: DIV is Python true division, not
integer division: dividing 1 by 2 yields one half, whereas integer division
would yield 0. -/
theorem div_true_division_counterexample :
    aluDiv 1 2 = some (1 / 2 : ℚ) ∧ aluDiv 1 2 ≠ some 0 ∧ ((1 : ℚ) / 2) ≠ 0 := by
  refine ⟨by norm_num [aluDiv], ?_, by norm_num⟩
  intro h
  rw [aluDiv] at h
  norm_num at h

/-- Claim C8, amended (status corrected).  DIV performs exact true division
(the float result is modelled over the rationals, exact at every input used
here); a zero divisor raises an uncaught ZeroDivisionError that aborts the
run, rather than a distinctly reported explicit check; and a nonzero divisor
produces a float result, leaving the integer register model. -/
theorem div_python_semantics (a b : ℚ) (s : CPUState) (rega regb va vb : ℤ)
    (ha : pyGet s.reg rega = some va) (hb : pyGet s.reg regb = some vb) :
    (b ≠ 0 → aluDiv a b = some (a / b)) ∧
      aluDiv a 0 = none ∧
      (vb = 0 → handle_div s rega regb = .error RunErr.zeroDivision) ∧
      (vb ≠ 0 → handle_div s rega regb = .error RunErr.floatDivision) := by
  refine ⟨?_, by simp [aluDiv], ?_, ?_⟩
  · intro hbz
    simp [aluDiv, hbz]
  · intro hz
    unfold handle_div alu
    rw [if_neg (by decide), if_neg (by decide), if_neg (by decide), if_pos (by decide)]
    simp only [liftO, ha, hb, exceptBind_ok, Except.pure, bind, Except.bind, pure]
    rw [if_pos hz]
  · intro hz
    unfold handle_div alu
    rw [if_neg (by decide), if_neg (by decide), if_neg (by decide), if_pos (by decide)]
    simp only [liftO, ha, hb, exceptBind_ok, Except.pure, bind, Except.bind, pure]
    rw [if_neg hz]

/-- Witness for the amended claim C8: 6 divided by 2 is exactly 3, dividing
by register 1 (holding 0) raises ZeroDivisionError, and dividing by register
2 (holding 2) leaves the integer model with a float. -/
theorem div_python_semantics_witness :
    aluDiv 6 2 = some 3 ∧
      handle_div c8State 0 1 = .error RunErr.zeroDivision ∧
      handle_div c8State 0 2 = .error RunErr.floatDivision := by
  refine ⟨?_, ?_, ?_⟩
  · have h := (div_python_semantics 6 2 c8State 0 1 10 0 (by decide) (by decide)).1
      (by norm_num)
    rw [h]
    norm_num
  · exact (div_python_semantics 6 2 c8State 0 1 10 0 (by decide) (by decide)).2.2.1 rfl
  · exact (div_python_semantics 6 2 c8State 0 2 10 2 (by decide) (by decide)).2.2.2
      (by decide)

/-- Claim C9, status confirmed.  JEQ with a clear equal flag, and JNE with a
set equal flag, cancel the sets-PC flag so that the dispatcher falls through
and advances PC by the 2-byte instruction size; on the taken branch each
sets PC to the named register value and the dispatcher performs no
additional advance. -/
theorem jeq_jne_cancel_sets_pc :
    (∀ (s : CPUState) (oa ob : ℤ),
      pyGet s.ram s.pc = some JEQ →
      pyGet s.ram (s.pc + 1) = some oa →
      pyGet s.ram (s.pc + 2) = some ob →
      (Int.land s.fl FL_EQ = 0 →
        execInstr s = .ok { s with inst_set_pc := false, pc := s.pc + 2 }) ∧
      (∀ va, Int.land s.fl FL_EQ ≠ 0 → pyGet s.reg oa = some va →
        execInstr s = .ok { s with inst_set_pc := true, pc := va })) ∧
    (∀ (s : CPUState) (oa ob : ℤ),
      pyGet s.ram s.pc = some JNE →
      pyGet s.ram (s.pc + 1) = some oa →
      pyGet s.ram (s.pc + 2) = some ob →
      (Int.land s.fl FL_EQ ≠ 0 →
        execInstr s = .ok { s with inst_set_pc := false, pc := s.pc + 2 }) ∧
      (∀ va, Int.land s.fl FL_EQ = 0 → pyGet s.reg oa = some va →
        execInstr s = .ok { s with inst_set_pc := true, pc := va })) := by
  constructor
  · intro s oa ob hir hoa hob
    have hbt : branchtable JEQ = some handle_jeq := rfl
    constructor
    · intro hfl
      have hcond : ¬(Int.land s.fl FL_EQ ≠ 0) := fun hc => hc hfl
      simp only [execInstr, ram_read, liftO, hir, hoa, hob, hbt, exceptBind_ok,
        handle_jeq, bind, Except.bind, pure, Except.pure]
      rw [if_neg hcond]
      norm_num
      decide
    · intro va hfl hva
      simp only [execInstr, ram_read, liftO, hir, hoa, hob, hbt, exceptBind_ok,
        handle_jeq, bind, Except.bind, pure, Except.pure]
      rw [if_pos hfl]
      simp only [hva, exceptBind_ok]
      have hb : (decide (Int.land (JEQ >>> (4 : ℤ)) 1 = 1)) = true := by decide
      rw [hb, if_pos rfl]
  · intro s oa ob hir hoa hob
    have hbt : branchtable JNE = some handle_jne := rfl
    constructor
    · intro hfl
      have hcond : ¬(Int.land s.fl FL_EQ = 0) := hfl
      simp only [execInstr, ram_read, liftO, hir, hoa, hob, hbt, exceptBind_ok,
        handle_jne, bind, Except.bind, pure, Except.pure]
      rw [if_neg hcond]
      norm_num
      decide
    · intro va hfl hva
      simp only [execInstr, ram_read, liftO, hir, hoa, hob, hbt, exceptBind_ok,
        handle_jne, bind, Except.bind, pure, Except.pure]
      rw [if_pos hfl]
      simp only [hva, exceptBind_ok]
      have hb : (decide (Int.land (JNE >>> (4 : ℤ)) 1 = 1)) = true := by decide
      rw [hb, if_pos rfl]

set_option maxRecDepth 10000 in
/-- Witness for claim C9 on one-instruction programs: both branches of JEQ
and of JNE, with register 0 holding the jump target 7. -/
theorem jeq_jne_cancel_sets_pc_witness :
    execInstr (CPUState.mk 0 0 1 false false jeqRam [7, 0, 0, 0, 0, 0, 0, 244]) =
        .ok (CPUState.mk 2 0 1 false false jeqRam [7, 0, 0, 0, 0, 0, 0, 244]) ∧
      execInstr (CPUState.mk 0 1 1 false false jeqRam [7, 0, 0, 0, 0, 0, 0, 244]) =
        .ok (CPUState.mk 7 1 1 false true jeqRam [7, 0, 0, 0, 0, 0, 0, 244]) ∧
      execInstr (CPUState.mk 0 1 1 false false jneRam [7, 0, 0, 0, 0, 0, 0, 244]) =
        .ok (CPUState.mk 2 1 1 false false jneRam [7, 0, 0, 0, 0, 0, 0, 244]) ∧
      execInstr (CPUState.mk 0 0 1 false false jneRam [7, 0, 0, 0, 0, 0, 0, 244]) =
        .ok (CPUState.mk 7 0 1 false true jneRam [7, 0, 0, 0, 0, 0, 0, 244]) := by
  refine ⟨?_, ?_, ?_, ?_⟩
  · have h := (jeq_jne_cancel_sets_pc.1 (CPUState.mk 0 0 1 false false jeqRam
      [7, 0, 0, 0, 0, 0, 0, 244]) 0 0 (by decide) (by decide) (by decide)).1 (by decide)
    rw [h]
    decide
  · have h := (jeq_jne_cancel_sets_pc.1 (CPUState.mk 0 1 1 false false jeqRam
      [7, 0, 0, 0, 0, 0, 0, 244]) 0 0 (by decide) (by decide) (by decide)).2 7
      (by decide) (by decide)
    rw [h]
  · have h := (jeq_jne_cancel_sets_pc.2 (CPUState.mk 0 1 1 false false jneRam
      [7, 0, 0, 0, 0, 0, 0, 244]) 0 0 (by decide) (by decide) (by decide)).1 (by decide)
    rw [h]
    decide
  · have h := (jeq_jne_cancel_sets_pc.2 (CPUState.mk 0 0 1 false false jneRam
      [7, 0, 0, 0, 0, 0, 0, 244]) 0 0 (by decide) (by decide) (by decide)).2 7
      (by decide) (by decide)
    rw [h]

set_option maxRecDepth 10000 in
/-- Claim C10, status confirmed.  No handler validates register operand
bytes against the register-file size 8: every operand byte from 8 to 255
makes the register-file access of LDI or of an ALU handler fall out of
bounds, so in this total embedding the access yields the IndexError branch;
the failure is reachable from the dispatcher (on the program `[LDI, 8, 5]`)
and is not the diagnosed invalid-instruction error. -/
theorem register_operands_unchecked :
    (∀ (s : CPUState) (a b : ℤ), s.reg.length = 8 → 8 ≤ a → a ≤ 255 →
      handle_ldi s a b = .error RunErr.indexError) ∧
      (∀ (s : CPUState) (a b : ℤ), s.reg.length = 8 → 8 ≤ a → a ≤ 255 →
        handle_add s a b = .error RunErr.indexError) ∧
      execInstr ldiOOBState = .error RunErr.indexError := by
  refine ⟨?_, ?_, by decide⟩
  · intro s a b hlen h8 h255
    simp only [handle_ldi, pySet, pyIdx, hlen, liftO]
    rw [if_neg (by omega), if_neg (by omega)]
    rfl
  · intro s a b hlen h8 h255
    unfold handle_add alu
    rw [if_pos (by decide)]
    simp only [pyGet, pyIdx, hlen, liftO]
    rw [if_neg (by omega), if_neg (by omega)]
    rfl

set_option maxRecDepth 10000 in
/-- Witness for claim C10: LDI with operand byte 8 and ADD with operand byte
100 both fail with IndexError on an 8-register machine. -/
theorem register_operands_unchecked_witness :
    handle_ldi ldiOOBState 8 5 = .error RunErr.indexError ∧
      handle_add ldiOOBState 100 1 = .error RunErr.indexError := by
  constructor
  · exact register_operands_unchecked.1 ldiOOBState 8 5 (by decide) (by decide) (by decide)
  · exact register_operands_unchecked.2.1 ldiOOBState 100 1 (by decide) (by decide)
      (by decide)

end LS8
